import Mathlib

/-! # RisingWave operator: conversion of the v1alpha1 resource to the hub version v1alpha2

A shallow embedding of `apis/risingwave/v1alpha1/risingwave_conversion.go` and of the
v1alpha2 types it fills.

Conventions of the embedding.

* A Go pointer `*T` is `Option T`; `nil` is `none`.  Reading a field through a nil
  pointer is a run-time panic, so every function that can dereference returns
  `Except Panic _`, and the operands of a call are evaluated before the call (this
  matters for `lo.If(c, a).Else(b)`, whose operand `b` is computed whatever `c` is).
* A Go slice is a `List` (a nil slice and an empty slice are not told apart), a Go
  `map[string]T` is an association list, `int32`/`int64` are `Int` (the conversion does
  no arithmetic on them).
* A Go string is a `String`; `strings.HasPrefix` and slicing by `len(prefix)` act on the
  characters, which agrees with the byte-wise Go operations on well-formed UTF-8 text.
* Values of Kubernetes API types that the conversion only copies are carried as `Raw`.
-/

/-- Run-time panic of the Go program. -/
inductive Panic where
  | nilPointerDereference
  deriving DecidableEq, Repr

/-- Reading through a Go pointer: a nil pointer panics. -/
def deref {α : Type} : Option α → Except Panic α
  | some a => Except.ok a
  | none => Except.error Panic.nilPointerDereference

/-- A value of an external API type whose content the conversion never inspects, kept
in serialised form. -/
structure Raw where
  json : String := ""
  deriving DecidableEq, Repr

/-- Go `map[string]string`. -/
abbrev StringMap := List (String × String)

namespace strings

/-- Go `strings.HasPrefix(s, pre)`. -/
def HasPrefix (s pre : String) : Bool :=
  pre.data.isPrefixOf s.data

/-- Go slice expression `s[len(pre):]`. -/
def sliceFrom (s pre : String) : String :=
  String.mk (s.data.drop pre.data.length)

end strings

namespace intstr

/-- Kubernetes `intstr.IntOrString`. -/
inductive IntOrString where
  | int (v : Int)
  | str (s : String)
  deriving DecidableEq, Repr

end intstr

namespace metav1

/-- Kubernetes `metav1.Time`, as an instant in seconds. -/
abbrev Time := Int

/-- Kubernetes `metav1.ObjectMeta`; copied as a whole. -/
abbrev ObjectMeta := Raw

end metav1

namespace corev1

abbrev PullPolicy := String
abbrev ServiceType := String
abbrev ConditionStatus := String
abbrev ResourceRequirements := Raw
abbrev Toleration := Raw
abbrev Affinity := Raw
abbrev PodSecurityContext := Raw
abbrev PodDNSConfig := Raw
abbrev EnvVar := Raw
abbrev EnvFromSource := Raw
abbrev PersistentVolumeClaimSpec := Raw

/-- Kubernetes `corev1.LocalObjectReference`. -/
structure LocalObjectReference where
  Name : String := ""
  deriving DecidableEq, Repr

/-- Kubernetes `corev1.VolumeMount` (the fields that identify a mount). -/
structure VolumeMount where
  Name : String := ""
  MountPath : String := ""
  deriving DecidableEq, Repr

end corev1

namespace kruisepubs

/-- OpenKruise `InPlaceUpdateStrategy`; copied as a whole. -/
abbrev InPlaceUpdateStrategy := Raw

end kruisepubs

namespace lo

/-- Go `lo.Map(xs, f)` for a callback that ignores the index. -/
def Map {α β : Type} (xs : List α) (f : α → β) : List β :=
  xs.map f

/-- Go `lo.If(c, a).Else(b)` once both operands have been evaluated. -/
def IfElse {α : Type} (c : Bool) (a b : α) : α :=
  if c then a else b

end lo

/-! ## The hub schema, `apis/risingwave/v1alpha2` -/

namespace v1alpha2

/-- `PartialObjectMeta`: labels and annotations. -/
structure PartialObjectMeta where
  Labels : StringMap := []
  Annotations : StringMap := []
  deriving DecidableEq, Repr

abbrev RisingWaveMetaStoreBackendType := String

def RisingWaveMetaStoreBackendTypeMemory : RisingWaveMetaStoreBackendType := "Memory"
def RisingWaveMetaStoreBackendTypeEtcd : RisingWaveMetaStoreBackendType := "Etcd"

structure RisingWaveEtcdCredentials where
  SecretName : String := ""
  UsernameKeyRef : Option String := none
  PasswordKeyRef : Option String := none
  deriving DecidableEq, Repr

structure RisingWaveMetaStoreBackendEtcd where
  RisingWaveEtcdCredentials : Option RisingWaveEtcdCredentials := none
  Endpoints : String := ""
  deriving DecidableEq, Repr

structure RisingWaveMetaStoreBackend where
  Memory : Option Bool := none
  Etcd : Option RisingWaveMetaStoreBackendEtcd := none
  deriving DecidableEq, Repr

structure RisingWaveMetaStoreStatus where
  Backend : RisingWaveMetaStoreBackendType := ""
  deriving DecidableEq, Repr

abbrev RisingWaveStateStoreBackendType := String

def RisingWaveStateStoreBackendTypeMemory : RisingWaveStateStoreBackendType := "Memory"
def RisingWaveStateStoreBackendTypeMinIO : RisingWaveStateStoreBackendType := "MinIO"
def RisingWaveStateStoreBackendTypeS3 : RisingWaveStateStoreBackendType := "S3"
def RisingWaveStateStoreBackendTypeS3Compatible : RisingWaveStateStoreBackendType := "S3c"
def RisingWaveStateStoreBackendTypeHDFS : RisingWaveStateStoreBackendType := "HDFS"
def RisingWaveStateStoreBackendTypeWebHDFS : RisingWaveStateStoreBackendType := "WebHDFS"
def RisingWaveStateStoreBackendTypeGCS : RisingWaveStateStoreBackendType := "GCS"

structure RisingWaveS3Credentials where
  SecretName : String := ""
  AccessKeyRef : Option String := none
  SecretAccessKeyRef : Option String := none
  deriving DecidableEq, Repr

structure RisingWaveStateStoreBackendS3 where
  RisingWaveS3Credentials : RisingWaveS3Credentials := {}
  Region : String := ""
  Bucket : String := ""
  DataDirectory : String := ""
  deriving DecidableEq, Repr

structure RisingWaveStateStoreBackendS3C where
  RisingWaveS3Credentials : RisingWaveS3Credentials := {}
  Endpoint : String := ""
  Region : String := ""
  Bucket : String := ""
  DataDirectory : String := ""
  deriving DecidableEq, Repr

structure RisingWaveMinIOCredentials where
  SecretName : String := ""
  UsernameKeyRef : Option String := none
  PasswordKeyRef : Option String := none
  deriving DecidableEq, Repr

structure RisingWaveStateStoreBackendMinIO where
  RisingWaveMinIOCredentials : RisingWaveMinIOCredentials := {}
  Endpoint : String := ""
  Bucket : String := ""
  deriving DecidableEq, Repr

structure RisingWaveStateStoreBackendHDFS where
  NameNode : String := ""
  Root : String := ""
  deriving DecidableEq, Repr

structure RisingWaveGCSCredentials where
  UseWorkloadIdentity : Bool := false
  SecretName : String := ""
  ServiceAccountCredentialsKeyRef : Option String := none
  deriving DecidableEq, Repr

structure RisingWaveStateStoreBackendGCS where
  RisingWaveGCSCredentials : RisingWaveGCSCredentials := {}
  Bucket : String := ""
  Root : String := ""
  deriving DecidableEq, Repr

structure RisingWaveStateStoreBackend where
  Memory : Option Bool := none
  MinIO : Option RisingWaveStateStoreBackendMinIO := none
  S3 : Option RisingWaveStateStoreBackendS3 := none
  S3C : Option RisingWaveStateStoreBackendS3C := none
  HDFS : Option RisingWaveStateStoreBackendHDFS := none
  GCS : Option RisingWaveStateStoreBackendGCS := none
  deriving DecidableEq, Repr

structure RisingWaveStateStoreStatus where
  Backend : RisingWaveStateStoreBackendType := ""
  deriving DecidableEq, Repr

structure RisingWaveScaleViewNodeGroupLock where
  Name : String := ""
  Replicas : Int := 0
  deriving DecidableEq, Repr

structure RisingWaveScaleViewReference where
  Name : String := ""
  UID : String := ""
  ObservedGeneration : Int := 0
  deriving DecidableEq, Repr

structure RisingWaveScaleViewLock where
  Reference : RisingWaveScaleViewReference := {}
  Component : String := ""
  Locks : List RisingWaveScaleViewNodeGroupLock := []
  deriving DecidableEq, Repr

structure RisingWaveNodeConfigurationConfigMapSource where
  Name : String := ""
  Key : String := ""
  Optional : Option Bool := none
  deriving DecidableEq, Repr

structure RisingWaveNodeConfigurationSecretSource where
  Name : String := ""
  Key : String := ""
  Optional : Option Bool := none
  deriving DecidableEq, Repr

structure RisingWaveNodeConfiguration where
  ConfigMap : Option RisingWaveNodeConfigurationConfigMapSource := none
  Secret : Option RisingWaveNodeConfigurationSecretSource := none
  Value : Option String := none
  deriving DecidableEq, Repr

end v1alpha2

namespace v1alpha2

/-- Modelled from the spec: the declaration of `RisingWaveNodePodTemplate` is missing
from the sources; the fields are the pod-level overrides of §3 that the conversion
assigns, and the volume mounts of the node. -/
structure RisingWaveNodePodTemplate where
  Image : String := ""
  ImagePullPolicy : corev1.PullPolicy := ""
  ImagePullSecrets : List corev1.LocalObjectReference := []
  Resources : corev1.ResourceRequirements := {}
  NodeSelector : StringMap := []
  Tolerations : List corev1.Toleration := []
  Affinity : Option corev1.Affinity := none
  Annotations : StringMap := []
  Labels : StringMap := []
  SecurityContext : Option corev1.PodSecurityContext := none
  PriorityClassName : String := ""
  TerminationGracePeriodSeconds : Option Int := none
  DNSConfig : Option corev1.PodDNSConfig := none
  Env : List corev1.EnvVar := []
  EnvFrom : List corev1.EnvFromSource := []
  VolumeMounts : List corev1.VolumeMount := []
  deriving DecidableEq, Repr

abbrev RisingWaveNodeGroupUpgradeStrategyType := String

/-- Modelled from the spec: the declaration of `RisingWaveNodeGroupRollingUpdate` is
missing from the sources; the rolling-update parameters of §4.2. -/
structure RisingWaveNodeGroupRollingUpdate where
  MaxUnavailable : Option intstr.IntOrString := none
  Partition : Option intstr.IntOrString := none
  MaxSurge : Option intstr.IntOrString := none
  deriving DecidableEq, Repr

/-- Modelled from the spec: the declaration of `RisingWaveNodeGroupUpgradeStrategy` is
missing from the sources; strategy type, optional rolling-update parameters and the
in-place strategy tag of §4.2. -/
structure RisingWaveNodeGroupUpgradeStrategy where
  Type_ : RisingWaveNodeGroupUpgradeStrategyType := ""
  RollingUpdate : Option RisingWaveNodeGroupRollingUpdate := none
  InPlaceUpdateStrategy : Option kruisepubs.InPlaceUpdateStrategy := none
  deriving DecidableEq, Repr

/-- Modelled from the spec: the declaration of `PersistentVolumeClaimPartialObjectMeta`
is missing from the sources; the four fields the conversion copies. -/
structure PersistentVolumeClaimPartialObjectMeta where
  Name : String := ""
  Labels : StringMap := []
  Annotations : StringMap := []
  Finalizers : List String := []
  deriving DecidableEq, Repr

/-- Modelled from the spec: the declaration of `PersistentVolumeClaim` is missing from
the sources; a volume-claim template is partial object metadata and a claim spec. -/
structure PersistentVolumeClaim where
  PersistentVolumeClaimPartialObjectMeta : PersistentVolumeClaimPartialObjectMeta := {}
  Spec : corev1.PersistentVolumeClaimSpec := {}
  deriving DecidableEq, Repr

/-- Modelled from the spec: the declaration of `RisingWaveNodeGroup` is missing from
the sources; a node group of §3 with the fields the conversion assigns. -/
structure RisingWaveNodeGroup where
  Name : String := ""
  Replicas : Int := 0
  RestartAt : Option metav1.Time := none
  UpgradeStrategy : RisingWaveNodeGroupUpgradeStrategy := {}
  VolumeClaimTemplates : List PersistentVolumeClaim := []
  Template : RisingWaveNodePodTemplate := {}
  deriving DecidableEq, Repr

/-- Modelled from the spec: the declaration of `RisingWaveComponent` is missing from
the sources; a log level and the ordered node groups. -/
structure RisingWaveComponent where
  LogLevel : String := ""
  NodeGroups : List RisingWaveNodeGroup := []
  deriving DecidableEq, Repr

/-- Modelled from the spec: the declaration of `WorkloadReplicaStatus` is missing from
the sources; the five replica counters of §4.3. -/
structure WorkloadReplicaStatus where
  Replicas : Int := 0
  ReadyReplicas : Int := 0
  AvailableReplicas : Int := 0
  UpdatedReplicas : Int := 0
  UnavailableReplicas : Int := 0
  deriving DecidableEq, Repr

/-- Modelled from the spec: the declaration of `RisingWaveNodeGroupStatus` is missing
from the sources; name, counters and the exists flag of one node group. -/
structure RisingWaveNodeGroupStatus where
  Name : String := ""
  WorkloadReplicaStatus : WorkloadReplicaStatus := {}
  Exists : Bool := false
  deriving DecidableEq, Repr

/-- Modelled from the spec: the declaration of `RisingWaveComponentStatus` is missing
from the sources; the total counters and the per-group breakdown. -/
structure RisingWaveComponentStatus where
  Total : WorkloadReplicaStatus := {}
  NodeGroups : List RisingWaveNodeGroupStatus := []
  deriving DecidableEq, Repr

structure RisingWaveSpec where
  UseKruiseWorkloads : Option Bool := none
  SyncPrometheusServiceMonitor : Option Bool := none
  FrontendServiceType : corev1.ServiceType := ""
  AdditionalFrontendServiceMetadata : PartialObjectMeta := {}
  MetaStore : RisingWaveMetaStoreBackend := {}
  StateStore : RisingWaveStateStoreBackend := {}
  Image : String := ""
  PodTemplate : RisingWaveNodePodTemplate := {}
  Configuration : RisingWaveNodeConfiguration := {}
  MetaComponent : RisingWaveComponent := {}
  FrontendComponent : RisingWaveComponent := {}
  ComputeComponent : RisingWaveComponent := {}
  CompactorComponent : RisingWaveComponent := {}
  deriving DecidableEq, Repr

abbrev RisingWaveConditionType := String

structure RisingWaveCondition where
  Type_ : RisingWaveConditionType := ""
  Status : corev1.ConditionStatus := ""
  LastTransitionTime : metav1.Time := 0
  Reason : String := ""
  Message : String := ""
  deriving DecidableEq, Repr

structure RisingWaveStatus where
  ObservedGeneration : Int := 0
  ImageTag : String := ""
  Conditions : List RisingWaveCondition := []
  MetaStore : RisingWaveMetaStoreStatus := {}
  StateStore : RisingWaveStateStoreStatus := {}
  MetaComponent : RisingWaveComponentStatus := {}
  FrontendComponent : RisingWaveComponentStatus := {}
  ComputeComponent : RisingWaveComponentStatus := {}
  CompactorComponent : RisingWaveComponentStatus := {}
  ScaleViewLocks : List RisingWaveScaleViewLock := []
  deriving DecidableEq, Repr

/-- The hub record (`TypeMeta` is fixed by the Go type and not carried). -/
structure RisingWave where
  ObjectMeta : metav1.ObjectMeta := {}
  Spec : RisingWaveSpec := {}
  Status : RisingWaveStatus := {}
  deriving DecidableEq, Repr

end v1alpha2

/-! ## The old schema, `apis/risingwave/v1alpha1`

The type declarations of this package are not among the sources; they are modelled from
the data model of the specification and from the fields the conversion reads. -/

namespace v1alpha1

/-- Go `error`: `none` is the nil error. -/
abbrev error := Option String

/-- Modelled from the spec: the declaration of `RisingWavePodTemplatePartialObjectMeta`
is missing from the sources; the labels and annotations of a pod. -/
structure RisingWavePodTemplatePartialObjectMeta where
  Labels : StringMap := []
  Annotations : StringMap := []
  deriving DecidableEq, Repr

/-- Modelled from the spec: the declaration of `RisingWaveComponentGroupTemplate` is
missing from the sources; the pod-level overrides of §3 (image, resources, selectors,
affinity, tolerations, annotations/labels, security context, pull secrets, priority
class, grace period, DNS config, env/envFrom). -/
structure RisingWaveComponentGroupTemplate where
  Image : String := ""
  ImagePullPolicy : corev1.PullPolicy := ""
  ImagePullSecrets : List String := []
  Resources : corev1.ResourceRequirements := {}
  NodeSelector : StringMap := []
  Tolerations : List corev1.Toleration := []
  Affinity : Option corev1.Affinity := none
  Metadata : RisingWavePodTemplatePartialObjectMeta := {}
  SecurityContext : Option corev1.PodSecurityContext := none
  PriorityClassName : String := ""
  TerminationGracePeriodSeconds : Option Int := none
  DNSConfig : Option corev1.PodDNSConfig := none
  Env : List corev1.EnvVar := []
  EnvFrom : List corev1.EnvFromSource := []
  deriving DecidableEq, Repr

abbrev RisingWaveUpgradeStrategyType := String

/-- Modelled from the spec: the declaration of `RisingWaveRollingUpdate` is missing from
the sources; the rolling-update parameters maxUnavailable, partition and maxSurge. -/
structure RisingWaveRollingUpdate where
  MaxUnavailable : Option intstr.IntOrString := none
  Partition : Option intstr.IntOrString := none
  MaxSurge : Option intstr.IntOrString := none
  deriving DecidableEq, Repr

/-- Modelled from the spec: the declaration of `RisingWaveUpgradeStrategy` is missing
from the sources; a strategy type, rolling-update parameters behind a pointer (the
conversion compares them with nil) and an in-place strategy tag. -/
structure RisingWaveUpgradeStrategy where
  Type_ : RisingWaveUpgradeStrategyType := ""
  RollingUpdate : Option RisingWaveRollingUpdate := none
  InPlaceUpdateStrategy : Option kruisepubs.InPlaceUpdateStrategy := none
  deriving DecidableEq, Repr

/-- Modelled from the spec: the declaration of `RisingWaveComponentGroup` is missing
from the sources; per §3 a group has a name, a replica count, an upgrade strategy and an
optional template (an embedded pointer in the conversion). -/
structure RisingWaveComponentGroup where
  Name : String := ""
  Replicas : Int := 0
  UpgradeStrategy : RisingWaveUpgradeStrategy := {}
  RisingWaveComponentGroupTemplate : Option RisingWaveComponentGroupTemplate := none
  deriving DecidableEq, Repr

/-- Modelled from the spec: the declaration of `RisingWaveComputeGroupTemplate` is
missing from the sources; the common template together with the volume mounts of a
compute group. -/
structure RisingWaveComputeGroupTemplate where
  RisingWaveComponentGroupTemplate : RisingWaveComponentGroupTemplate := {}
  VolumeMounts : List corev1.VolumeMount := []
  deriving DecidableEq, Repr

/-- Modelled from the spec: the declaration of `RisingWaveComputeGroup` is missing from
the sources; name, replica count and an optional compute template (an embedded pointer,
compared with nil by the conversion). -/
structure RisingWaveComputeGroup where
  Name : String := ""
  Replicas : Int := 0
  RisingWaveComputeGroupTemplate : Option RisingWaveComputeGroupTemplate := none
  deriving DecidableEq, Repr

/-- Modelled from the spec: the declaration of `PersistentVolumeClaimPartialObjectMeta`
is missing from the sources; the four fields the conversion copies. -/
structure PersistentVolumeClaimPartialObjectMeta where
  Name : String := ""
  Labels : StringMap := []
  Annotations : StringMap := []
  Finalizers : List String := []
  deriving DecidableEq, Repr

/-- Modelled from the spec: the declaration of `PersistentVolumeClaim` is missing from
the sources; a volume-claim template is partial object metadata and a claim spec. -/
structure PersistentVolumeClaim where
  PersistentVolumeClaimPartialObjectMeta : PersistentVolumeClaimPartialObjectMeta := {}
  Spec : corev1.PersistentVolumeClaimSpec := {}
  deriving DecidableEq, Repr

/-- Modelled from the spec: the declaration of `RisingWaveMetaStorageEtcd` is missing
from the sources; §3 `Etcd(endpoints, optional secret)`. -/
structure RisingWaveMetaStorageEtcd where
  Endpoint : String := ""
  Secret : String := ""
  deriving DecidableEq, Repr

/-- Modelled from the spec: the declaration of `RisingWaveMetaStorage` is missing from
the sources; the old meta-store union, one optional branch per backend. -/
structure RisingWaveMetaStorage where
  Memory : Option Bool := none
  Etcd : Option RisingWaveMetaStorageEtcd := none
  deriving DecidableEq, Repr

/-- Modelled from the spec: the declaration of `RisingWaveObjectStorageMinIO` is missing
from the sources; §3 `MinIO(endpoint,bucket,secret)`. -/
structure RisingWaveObjectStorageMinIO where
  Secret : String := ""
  Endpoint : String := ""
  Bucket : String := ""
  deriving DecidableEq, Repr

/-- Modelled from the spec: the declaration of `RisingWaveObjectStorageS3` is missing
from the sources; §3 `S3(region,bucket,secret,optional endpoint+virtual-host flag)`. -/
structure RisingWaveObjectStorageS3 where
  Secret : String := ""
  Region : String := ""
  Bucket : String := ""
  Endpoint : String := ""
  VirtualHostedStyle : Bool := false
  deriving DecidableEq, Repr

/-- Modelled from the spec: the declaration of `RisingWaveObjectStorageAliyunOSS` is
missing from the sources; §3 `AliyunOSS(region,bucket,secret,internal-endpoint flag)`. -/
structure RisingWaveObjectStorageAliyunOSS where
  Secret : String := ""
  Region : String := ""
  Bucket : String := ""
  InternalEndpoint : Bool := false
  deriving DecidableEq, Repr

/-- Modelled from the spec: the declaration of `RisingWaveObjectStorageHDFS` is missing
from the sources; §3 `HDFS(nameNode,root)`. -/
structure RisingWaveObjectStorageHDFS where
  NameNode : String := ""
  Root : String := ""
  deriving DecidableEq, Repr

/-- Modelled from the spec: the declaration of `RisingWaveObjectStorageGCS` is missing
from the sources; §3 `GCS(bucket,root,workloadIdentity,secret)`. -/
structure RisingWaveObjectStorageGCS where
  UseWorkloadIdentity : Bool := false
  Secret : String := ""
  Bucket : String := ""
  Root : String := ""
  deriving DecidableEq, Repr

/-- Modelled from the spec: the declaration of `RisingWaveObjectStorage` is missing from
the sources; the old state-store union, one optional branch per backend (the Go struct
does not prevent several branches from being populated). -/
structure RisingWaveObjectStorage where
  Memory : Option Bool := none
  MinIO : Option RisingWaveObjectStorageMinIO := none
  S3 : Option RisingWaveObjectStorageS3 := none
  AliyunOSS : Option RisingWaveObjectStorageAliyunOSS := none
  HDFS : Option RisingWaveObjectStorageHDFS := none
  GCS : Option RisingWaveObjectStorageGCS := none
  deriving DecidableEq, Repr

end v1alpha1

namespace v1alpha1

/-- Modelled from the spec: the declaration of `RisingWaveStoragesSpec` is missing from
the sources; the meta store, the object store and the shared volume-claim templates. -/
structure RisingWaveStoragesSpec where
  Meta : RisingWaveMetaStorage := {}
  Object : RisingWaveObjectStorage := {}
  PVCTemplates : List PersistentVolumeClaim := []
  deriving DecidableEq, Repr

/-- Modelled from the spec: the declaration of `RisingWaveGlobalReplicas` is missing
from the sources; the default replica count of each component. -/
structure RisingWaveGlobalReplicas where
  Meta : Int := 0
  Frontend : Int := 0
  Compute : Int := 0
  Compactor : Int := 0
  deriving DecidableEq, Repr

/-- Modelled from the spec: the declaration of `RisingWaveGlobalSpec` is missing from
the sources; the component's global default template (embedded, it also gives the
image), the default replica counts, and the frontend service type and metadata. -/
structure RisingWaveGlobalSpec where
  RisingWaveComponentGroupTemplate : RisingWaveComponentGroupTemplate := {}
  Replicas : RisingWaveGlobalReplicas := {}
  ServiceType : corev1.ServiceType := ""
  ServiceMeta : RisingWavePodTemplatePartialObjectMeta := {}
  deriving DecidableEq, Repr

/-- Modelled from the spec: the declaration of the config-map key selector is missing
from the sources; the name, key and optional flag the conversion reads. -/
structure ConfigMapKeySelector where
  Name : String := ""
  Key : String := ""
  Optional : Option Bool := none
  deriving DecidableEq, Repr

/-- Modelled from the spec: the declaration of `RisingWaveConfigurationSpec` is missing
from the sources; a config-map reference behind a pointer (the conversion compares it
with nil). -/
structure RisingWaveConfigurationSpec where
  ConfigMap : Option ConfigMapKeySelector := none
  deriving DecidableEq, Repr

/-- Modelled from the spec: the declarations of the meta, frontend and compactor
component specs are missing from the sources; per §3 an optional restart timestamp and
an ordered list of named groups. -/
structure RisingWaveComponentSpec where
  RestartAt : Option metav1.Time := none
  Groups : List RisingWaveComponentGroup := []
  deriving DecidableEq, Repr

/-- Modelled from the spec: the declaration of the compute component spec is missing
from the sources; an optional restart timestamp and an ordered list of compute groups. -/
structure RisingWaveComputeComponentSpec where
  RestartAt : Option metav1.Time := none
  Groups : List RisingWaveComputeGroup := []
  deriving DecidableEq, Repr

/-- Modelled from the spec: the declaration of `RisingWaveComponentsSpec` is missing
from the sources; the four components of §3. -/
structure RisingWaveComponentsSpec where
  Meta : RisingWaveComponentSpec := {}
  Frontend : RisingWaveComponentSpec := {}
  Compute : RisingWaveComputeComponentSpec := {}
  Compactor : RisingWaveComponentSpec := {}
  deriving DecidableEq, Repr

/-- Modelled from the spec: the declaration of `RisingWaveSpec` (v1alpha1) is missing
from the sources; the fields the conversion reads. -/
structure RisingWaveSpec where
  EnableOpenKruise : Option Bool := none
  EnableDefaultServiceMonitor : Option Bool := none
  Global : RisingWaveGlobalSpec := {}
  Storages : RisingWaveStoragesSpec := {}
  Configuration : RisingWaveConfigurationSpec := {}
  Components : RisingWaveComponentsSpec := {}
  deriving DecidableEq, Repr

abbrev RisingWaveConditionType := String
abbrev MetaStorageType := String
abbrev ObjectStorageType := String

/-- Modelled from the spec: the constant `MetaStorageTypeMemory` is missing from the
sources; the discriminant of the Memory meta store. -/
def MetaStorageTypeMemory : MetaStorageType := "Memory"
/-- Modelled from the spec: the constant `MetaStorageTypeEtcd` is missing from the
sources; the discriminant of the Etcd meta store. -/
def MetaStorageTypeEtcd : MetaStorageType := "Etcd"
/-- Modelled from the spec: the constant `ObjectStorageTypeMemory` is missing from the
sources; the discriminant of the Memory object store. -/
def ObjectStorageTypeMemory : ObjectStorageType := "Memory"
/-- Modelled from the spec: the constant `ObjectStorageTypeMinIO` is missing from the
sources; the discriminant of the MinIO object store. -/
def ObjectStorageTypeMinIO : ObjectStorageType := "MinIO"
/-- Modelled from the spec: the constant `ObjectStorageTypeS3` is missing from the
sources; the discriminant of the S3 object store. -/
def ObjectStorageTypeS3 : ObjectStorageType := "S3"
/-- Modelled from the spec: the constant `ObjectStorageTypeGCS` is missing from the
sources; the discriminant of the GCS object store. -/
def ObjectStorageTypeGCS : ObjectStorageType := "GCS"
/-- Modelled from the spec: the constant `ObjectStorageTypeAliyunOSS` is missing from
the sources; the discriminant of the AliyunOSS object store. -/
def ObjectStorageTypeAliyunOSS : ObjectStorageType := "AliyunOSS"
/-- Modelled from the spec: the constant `ObjectStorageTypeHDFS` is missing from the
sources; the discriminant of the HDFS object store. -/
def ObjectStorageTypeHDFS : ObjectStorageType := "HDFS"

/-- Modelled from the spec: the declaration of `RisingWaveCondition` (v1alpha1) is
missing from the sources; §3 `(type, status, transition time, reason, message)`. -/
structure RisingWaveCondition where
  Type_ : RisingWaveConditionType := ""
  Status : String := ""
  LastTransitionTime : metav1.Time := 0
  Reason : String := ""
  Message : String := ""
  deriving DecidableEq, Repr

/-- Modelled from the spec: the declaration of the meta storage status is missing from
the sources; its type discriminant. -/
structure RisingWaveMetaStorageStatus where
  Type_ : MetaStorageType := ""
  deriving DecidableEq, Repr

/-- Modelled from the spec: the declaration of the object storage status is missing
from the sources; its type discriminant. -/
structure RisingWaveObjectStorageStatus where
  Type_ : ObjectStorageType := ""
  deriving DecidableEq, Repr

/-- Modelled from the spec: the declaration of `RisingWaveStoragesStatus` is missing
from the sources; the two storage statuses. -/
structure RisingWaveStoragesStatus where
  Meta : RisingWaveMetaStorageStatus := {}
  Object : RisingWaveObjectStorageStatus := {}
  deriving DecidableEq, Repr

/-- Modelled from the spec: the declaration of `ComponentGroupReplicasStatus` is missing
from the sources; name, target, running and the exists flag of one group. -/
structure ComponentGroupReplicasStatus where
  Name : String := ""
  Target : Int := 0
  Running : Int := 0
  Exists : Bool := false
  deriving DecidableEq, Repr

/-- Modelled from the spec: the declaration of `ComponentReplicasStatus` is missing from
the sources; §4.3 `(target, running, per-group breakdown)`. -/
structure ComponentReplicasStatus where
  Target : Int := 0
  Running : Int := 0
  Groups : List ComponentGroupReplicasStatus := []
  deriving DecidableEq, Repr

/-- Modelled from the spec: the declaration of `RisingWaveComponentsReplicasStatus` is
missing from the sources; one replica status per component. -/
structure RisingWaveComponentsReplicasStatus where
  Meta : ComponentReplicasStatus := {}
  Frontend : ComponentReplicasStatus := {}
  Compute : ComponentReplicasStatus := {}
  Compactor : ComponentReplicasStatus := {}
  deriving DecidableEq, Repr

/-- Modelled from the spec: the declaration of `RisingWaveScaleViewLockGroupLock` is
missing from the sources; §3 `(groupName → replica ceiling)`. -/
structure RisingWaveScaleViewLockGroupLock where
  Name : String := ""
  Replicas : Int := 0
  deriving DecidableEq, Repr

/-- Modelled from the spec: the declaration of `RisingWaveScaleViewLock` (v1alpha1) is
missing from the sources; reference `(name, uid, generation)`, target component and the
ordered group locks. -/
structure RisingWaveScaleViewLock where
  Name : String := ""
  UID : String := ""
  Generation : Int := 0
  Component : String := ""
  GroupLocks : List RisingWaveScaleViewLockGroupLock := []
  deriving DecidableEq, Repr

/-- Modelled from the spec: the declaration of `RisingWaveStatus` (v1alpha1) is missing
from the sources; the fields the conversion reads. -/
structure RisingWaveStatus where
  ObservedGeneration : Int := 0
  Conditions : List RisingWaveCondition := []
  Version : String := ""
  Storages : RisingWaveStoragesStatus := {}
  ComponentReplicas : RisingWaveComponentsReplicasStatus := {}
  ScaleViews : List RisingWaveScaleViewLock := []
  deriving DecidableEq, Repr

/-- Modelled from the spec: the declaration of `RisingWave` (v1alpha1) is missing from
the sources; object metadata, spec and status. -/
structure RisingWave where
  ObjectMeta : metav1.ObjectMeta := {}
  Spec : RisingWaveSpec := {}
  Status : RisingWaveStatus := {}
  deriving DecidableEq, Repr

end v1alpha1

/-! ## `risingwave_conversion.go` -/

namespace lo

/-- Go `lo.Map(xs, f)` for a callback that may panic: the elements are visited in
order and the first panic aborts the call. -/
def MapM {α β : Type} : List α → (α → Except Panic β) → Except Panic (List β)
  | [], _ => Except.ok []
  | x :: xs, f =>
    match f x with
    | Except.error e => Except.error e
    | Except.ok y =>
      match MapM xs f with
      | Except.error e => Except.error e
      | Except.ok ys => Except.ok (y :: ys)

end lo

namespace v1alpha1

def aliyunOSSEndpoint : String := "${BUCKET}.oss-${REGION}.aliyuncs.com"
def internalAliyunOSSEndpoint : String := "${BUCKET}.oss-${REGION}-internal.aliyuncs.com"

def buildV1alpha2RisingWaveNodePodTemplate (src : Option RisingWaveComponentGroupTemplate) :
    v1alpha2.RisingWaveNodePodTemplate :=
  match src with
  | none => {}
  | some src =>
    { Image := src.Image
      ImagePullPolicy := src.ImagePullPolicy
      ImagePullSecrets := lo.Map src.ImagePullSecrets (fun s => { Name := s })
      Resources := src.Resources
      NodeSelector := src.NodeSelector
      Tolerations := src.Tolerations
      Affinity := src.Affinity
      Annotations := src.Metadata.Annotations
      Labels := src.Metadata.Labels
      SecurityContext := src.SecurityContext
      PriorityClassName := src.PriorityClassName
      TerminationGracePeriodSeconds := src.TerminationGracePeriodSeconds
      DNSConfig := src.DNSConfig
      Env := src.Env
      EnvFrom := src.EnvFrom }

/-- The operand of `.Else(...)` is built before `Else` is called, so the three fields
are read through `src.UpgradeStrategy.RollingUpdate` whatever the condition is; the
condition of `lo.If` is `RollingUpdate != nil` and its operand is the nil pointer. -/
def buildV1alpha2RisingWaveNodeGroup (src : RisingWaveComponentGroup) :
    Except Panic v1alpha2.RisingWaveNodeGroup :=
  match deref src.UpgradeStrategy.RollingUpdate with
  | Except.error e => Except.error e
  | Except.ok rollingUpdate =>
    let elseOperand : Option v1alpha2.RisingWaveNodeGroupRollingUpdate :=
      some { MaxUnavailable := rollingUpdate.MaxUnavailable
             Partition := rollingUpdate.Partition
             MaxSurge := rollingUpdate.MaxSurge }
    Except.ok
      { Name := src.Name
        Replicas := src.Replicas
        UpgradeStrategy :=
          { Type_ := src.UpgradeStrategy.Type_
            RollingUpdate :=
              lo.IfElse src.UpgradeStrategy.RollingUpdate.isSome none elseOperand
            InPlaceUpdateStrategy := src.UpgradeStrategy.InPlaceUpdateStrategy }
        Template := buildV1alpha2RisingWaveNodePodTemplate src.RisingWaveComponentGroupTemplate }

def buildV1alpha2RisingWaveComponent (replicasOfDefaultGroup : Int)
    (restartAt : Option metav1.Time) (groups : List RisingWaveComponentGroup) :
    Except Panic v1alpha2.RisingWaveComponent :=
  match lo.MapM groups (fun group =>
      match buildV1alpha2RisingWaveNodeGroup group with
      | Except.error e => Except.error e
      | Except.ok ng => Except.ok { ng with RestartAt := restartAt }) with
  | Except.error e => Except.error e
  | Except.ok nodeGroups =>
    Except.ok
      { LogLevel := "INFO"
        NodeGroups := nodeGroups ++
          [{ Name := "", Replicas := replicasOfDefaultGroup, RestartAt := restartAt }] }

def buildV1alpha2RisingWaveComponentStatus (src : ComponentReplicasStatus) :
    v1alpha2.RisingWaveComponentStatus :=
  { Total :=
      { Replicas := src.Target
        ReadyReplicas := src.Running
        AvailableReplicas := src.Running
        UpdatedReplicas := src.Running
        UnavailableReplicas := 0 }
    NodeGroups := lo.Map src.Groups (fun group =>
      { Name := group.Name
        WorkloadReplicaStatus :=
          { Replicas := group.Target
            ReadyReplicas := group.Running
            AvailableReplicas := group.Running
            UpdatedReplicas := group.Running
            UnavailableReplicas := 0 }
        Exists := group.Exists }) }

/-- The meta-store closure of `ConvertTo`. -/
def convertMetaStore (srcMetaStore : RisingWaveMetaStorage) : v1alpha2.RisingWaveMetaStoreBackend :=
  let metaStore : v1alpha2.RisingWaveMetaStoreBackend := { Memory := srcMetaStore.Memory }
  match srcMetaStore.Etcd with
  | none => metaStore
  | some etcd =>
    { metaStore with
      Etcd := some
        { RisingWaveEtcdCredentials :=
            lo.IfElse (etcd.Secret == "") none
              (some { SecretName := etcd.Secret
                      UsernameKeyRef := some "username"
                      PasswordKeyRef := some "password" })
          Endpoints := etcd.Endpoint } }

/-- The `if srcStateStore.MinIO != nil` block of the state-store closure. -/
def stateStoreMinIO (srcStateStore : RisingWaveObjectStorage)
    (stateStore : v1alpha2.RisingWaveStateStoreBackend) : v1alpha2.RisingWaveStateStoreBackend :=
  match srcStateStore.MinIO with
  | none => stateStore
  | some minio =>
    { stateStore with
      MinIO := some
        { RisingWaveMinIOCredentials :=
            { SecretName := minio.Secret
              UsernameKeyRef := some "username"
              PasswordKeyRef := some "password" }
          Endpoint := minio.Endpoint
          Bucket := minio.Bucket } }

/-- The endpoint of the S3-compatible target computed from an S3 source with an
endpoint (the local variable `endpoint`). -/
def s3cEndpoint (s3 : RisingWaveObjectStorageS3) : String :=
  if s3.VirtualHostedStyle then
    if strings.HasPrefix s3.Endpoint "https://" then
      "https://${BUCKET}" ++ strings.sliceFrom s3.Endpoint "https://"
    else
      "${BUCKET}" ++ s3.Endpoint
  else
    s3.Endpoint

/-- The `if srcStateStore.S3 != nil` block of the state-store closure.  With an empty
endpoint the region and bucket of the new value are read through `stateStore.S3`, the
target being built, not through `srcStateStore.S3`. -/
def stateStoreS3 (srcStateStore : RisingWaveObjectStorage)
    (stateStore : v1alpha2.RisingWaveStateStoreBackend) :
    Except Panic v1alpha2.RisingWaveStateStoreBackend :=
  match srcStateStore.S3 with
  | none => Except.ok stateStore
  | some s3 =>
    if s3.Endpoint = "" then
      match deref stateStore.S3 with
      | Except.error e => Except.error e
      | Except.ok dstS3 =>
        Except.ok
          { stateStore with
            S3 := some
              { RisingWaveS3Credentials :=
                  { SecretName := s3.Secret
                    AccessKeyRef := some "AccessKeyID"
                    SecretAccessKeyRef := some "SecretAccessKey" }
                Region := dstS3.Region
                Bucket := dstS3.Bucket } }
    else
      Except.ok
        { stateStore with
          S3C := some
            { RisingWaveS3Credentials :=
                { SecretName := s3.Secret
                  AccessKeyRef := some "AccessKeyID"
                  SecretAccessKeyRef := some "SecretAccessKey" }
              Endpoint := s3cEndpoint s3
              Region := s3.Region
              Bucket := s3.Bucket } }

/-- The `if srcStateStore.AliyunOSS != nil` block of the state-store closure. -/
def stateStoreAliyunOSS (srcStateStore : RisingWaveObjectStorage)
    (stateStore : v1alpha2.RisingWaveStateStoreBackend) : v1alpha2.RisingWaveStateStoreBackend :=
  match srcStateStore.AliyunOSS with
  | none => stateStore
  | some oss =>
    { stateStore with
      S3C := some
        { RisingWaveS3Credentials :=
            { SecretName := oss.Secret
              AccessKeyRef := some "AccessKeyID"
              SecretAccessKeyRef := some "SecretAccessKey" }
          Endpoint := lo.IfElse oss.InternalEndpoint internalAliyunOSSEndpoint aliyunOSSEndpoint
          Region := oss.Region
          Bucket := oss.Bucket } }

/-- The `if srcStateStore.HDFS != nil` block of the state-store closure. -/
def stateStoreHDFS (srcStateStore : RisingWaveObjectStorage)
    (stateStore : v1alpha2.RisingWaveStateStoreBackend) : v1alpha2.RisingWaveStateStoreBackend :=
  match srcStateStore.HDFS with
  | none => stateStore
  | some hdfs =>
    { stateStore with HDFS := some { NameNode := hdfs.NameNode, Root := hdfs.Root } }

/-- The `if srcStateStore.GCS != nil` block of the state-store closure. -/
def stateStoreGCS (srcStateStore : RisingWaveObjectStorage)
    (stateStore : v1alpha2.RisingWaveStateStoreBackend) : v1alpha2.RisingWaveStateStoreBackend :=
  match srcStateStore.GCS with
  | none => stateStore
  | some gcs =>
    { stateStore with
      GCS := some
        { RisingWaveGCSCredentials :=
            { UseWorkloadIdentity := gcs.UseWorkloadIdentity
              SecretName := gcs.Secret
              ServiceAccountCredentialsKeyRef := some "ServiceAccountCredentials" }
          Bucket := gcs.Bucket
          Root := gcs.Root } }

/-- The state-store closure of `ConvertTo`: a fresh target, the Memory flag, then the
MinIO, S3, AliyunOSS, HDFS and GCS blocks in this order. -/
def convertStateStore (srcStateStore : RisingWaveObjectStorage) :
    Except Panic v1alpha2.RisingWaveStateStoreBackend :=
  let stateStore : v1alpha2.RisingWaveStateStoreBackend := { Memory := srcStateStore.Memory }
  let stateStore := stateStoreMinIO srcStateStore stateStore
  match stateStoreS3 srcStateStore stateStore with
  | Except.error e => Except.error e
  | Except.ok stateStore =>
    let stateStore := stateStoreAliyunOSS srcStateStore stateStore
    let stateStore := stateStoreHDFS srcStateStore stateStore
    let stateStore := stateStoreGCS srcStateStore stateStore
    Except.ok stateStore

/-- The configuration of `ConvertTo`: the operand of `.Else(...)` reads name, key and
optional flag through `src.Spec.Configuration.ConfigMap` before `Else` is called. -/
def convertConfiguration (src : RisingWaveConfigurationSpec) :
    Except Panic v1alpha2.RisingWaveNodeConfiguration :=
  match deref src.ConfigMap with
  | Except.error e => Except.error e
  | Except.ok configMap =>
    let elseOperand : Option v1alpha2.RisingWaveNodeConfigurationConfigMapSource :=
      some { Name := configMap.Name, Key := configMap.Key, Optional := configMap.Optional }
    Except.ok { ConfigMap := lo.IfElse src.ConfigMap.isNone none elseOperand }

/-- The callback that turns a compute group into a component group: the operand of
`.Else(...)` takes the address of the template promoted through the embedded pointer
`g.RisingWaveComputeGroupTemplate`.  The upgrade strategy is not in the literal. -/
def computeGroupToComponentGroup (g : RisingWaveComputeGroup) :
    Except Panic RisingWaveComponentGroup :=
  match deref g.RisingWaveComputeGroupTemplate with
  | Except.error e => Except.error e
  | Except.ok computeTemplate =>
    let elseOperand : Option RisingWaveComponentGroupTemplate :=
      some computeTemplate.RisingWaveComponentGroupTemplate
    Except.ok
      { Name := g.Name
        Replicas := g.Replicas
        RisingWaveComponentGroupTemplate :=
          lo.IfElse g.RisingWaveComputeGroupTemplate.isNone none elseOperand }

/-- Go `m[key] = value` on a `map[string]T`. -/
def mapStore {α : Type} (m : List (String × α)) (key : String) (value : α) : List (String × α) :=
  (key, value) :: m.filter (fun entry => entry.1 != key)

/-- Go `m[key]` on a `map[string][]T`: the nil slice when the key is absent. -/
def mapIndex {α : Type} (m : List (String × List α)) (key : String) : List α :=
  match m.find? (fun entry => entry.1 == key) with
  | some entry => entry.2
  | none => []

/-- The first loop after the compute component: the table of volume mounts by group
name; `ng.VolumeMounts` is read through the embedded compute template pointer. -/
def buildVolumeMounts :
    List RisingWaveComputeGroup → List (String × List corev1.VolumeMount) →
    Except Panic (List (String × List corev1.VolumeMount))
  | [], volumeMounts => Except.ok volumeMounts
  | ng :: rest, volumeMounts =>
    match deref ng.RisingWaveComputeGroupTemplate with
    | Except.error e => Except.error e
    | Except.ok computeTemplate =>
      buildVolumeMounts rest (mapStore volumeMounts ng.Name computeTemplate.VolumeMounts)

def convertPVCTemplates (templates : List PersistentVolumeClaim) : List v1alpha2.PersistentVolumeClaim :=
  lo.Map templates (fun src =>
    { PersistentVolumeClaimPartialObjectMeta :=
        { Name := src.PersistentVolumeClaimPartialObjectMeta.Name
          Labels := src.PersistentVolumeClaimPartialObjectMeta.Labels
          Annotations := src.PersistentVolumeClaimPartialObjectMeta.Annotations
          Finalizers := src.PersistentVolumeClaimPartialObjectMeta.Finalizers }
      Spec := src.Spec })

/-- The second loop, `for _, ng := range dst.Spec.ComputeComponent.NodeGroups`.  The
state is the slice and the loop variable `ng`; each round copies an element into `ng`
and assigns the claim templates and the mounts to that copy.  No statement of the body
writes to the slice. -/
def attachVolumesLoop (pvcTemplates : List PersistentVolumeClaim)
    (volumeMounts : List (String × List corev1.VolumeMount))
    (nodeGroups : List v1alpha2.RisingWaveNodeGroup) :
    List v1alpha2.RisingWaveNodeGroup × Option v1alpha2.RisingWaveNodeGroup :=
  nodeGroups.foldl (fun state element =>
    let ng : v1alpha2.RisingWaveNodeGroup := element
    let ng := { ng with VolumeClaimTemplates := convertPVCTemplates pvcTemplates }
    let ng := { ng with Template := { ng.Template with VolumeMounts := mapIndex volumeMounts ng.Name } }
    (state.1, some ng)) (nodeGroups, none)

/-- The statements of `ConvertTo` between the compute component and the frontend
component: the table of volume mounts is built from the compute groups of the source,
then the loop runs over the node groups of the compute component built so far.  The
result is the compute component of the hub record after these statements. -/
def attachComputeVolumes (src : RisingWave) (computeComponent : v1alpha2.RisingWaveComponent) :
    Except Panic v1alpha2.RisingWaveComponent :=
  match buildVolumeMounts src.Spec.Components.Compute.Groups [] with
  | Except.error e => Except.error e
  | Except.ok volumeMounts =>
    Except.ok
      { computeComponent with
        NodeGroups :=
          (attachVolumesLoop src.Spec.Storages.PVCTemplates volumeMounts
            computeComponent.NodeGroups).1 }

def convertConditions (conditions : List RisingWaveCondition) : List v1alpha2.RisingWaveCondition :=
  conditions.map (fun cond =>
    { Type_ := cond.Type_
      Status := cond.Status
      LastTransitionTime := cond.LastTransitionTime
      Reason := cond.Reason
      Message := cond.Message })

/-- The `lo.Switch` over the meta storage type. -/
def convertMetaStorageType (t : MetaStorageType) : v1alpha2.RisingWaveMetaStoreBackendType :=
  if t = MetaStorageTypeEtcd then v1alpha2.RisingWaveMetaStoreBackendTypeEtcd
  else if t = MetaStorageTypeMemory then v1alpha2.RisingWaveMetaStoreBackendTypeMemory
  else ""

/-- The `lo.Switch` over the object storage type. -/
def convertObjectStorageType (t : ObjectStorageType) : v1alpha2.RisingWaveStateStoreBackendType :=
  if t = ObjectStorageTypeMemory then v1alpha2.RisingWaveStateStoreBackendTypeMemory
  else if t = ObjectStorageTypeMinIO then v1alpha2.RisingWaveStateStoreBackendTypeMinIO
  else if t = ObjectStorageTypeS3 then v1alpha2.RisingWaveStateStoreBackendTypeS3
  else if t = ObjectStorageTypeGCS then v1alpha2.RisingWaveStateStoreBackendTypeGCS
  else if t = ObjectStorageTypeAliyunOSS then v1alpha2.RisingWaveStateStoreBackendTypeS3Compatible
  else if t = ObjectStorageTypeHDFS then v1alpha2.RisingWaveStateStoreBackendTypeHDFS
  else ""

def convertScaleViewLocks (scaleViews : List RisingWaveScaleViewLock) :
    List v1alpha2.RisingWaveScaleViewLock :=
  lo.Map scaleViews (fun l =>
    { Reference := { Name := l.Name, UID := l.UID, ObservedGeneration := l.Generation }
      Component := l.Component
      Locks := lo.Map l.GroupLocks (fun gl => { Name := gl.Name, Replicas := gl.Replicas }) })

/-- `ConvertTo`: the hub record `dst` after the call and the returned error, or the
panic that aborts the call.  The statements run in the order of the source. -/
def ConvertTo (src : RisingWave) (dst : v1alpha2.RisingWave) :
    Except Panic (v1alpha2.RisingWave × error) :=
  let metaStore := convertMetaStore src.Spec.Storages.Meta
  match convertStateStore src.Spec.Storages.Object with
  | Except.error e => Except.error e
  | Except.ok stateStore =>
  let podTemplate :=
    buildV1alpha2RisingWaveNodePodTemplate (some src.Spec.Global.RisingWaveComponentGroupTemplate)
  match convertConfiguration src.Spec.Configuration with
  | Except.error e => Except.error e
  | Except.ok configuration =>
  match buildV1alpha2RisingWaveComponent src.Spec.Global.Replicas.Meta
      src.Spec.Components.Meta.RestartAt src.Spec.Components.Meta.Groups with
  | Except.error e => Except.error e
  | Except.ok metaComponent =>
  match lo.MapM src.Spec.Components.Compute.Groups computeGroupToComponentGroup with
  | Except.error e => Except.error e
  | Except.ok computeGroups =>
  match buildV1alpha2RisingWaveComponent src.Spec.Global.Replicas.Compute
      src.Spec.Components.Compute.RestartAt computeGroups with
  | Except.error e => Except.error e
  | Except.ok computeComponent =>
  match buildVolumeMounts src.Spec.Components.Compute.Groups [] with
  | Except.error e => Except.error e
  | Except.ok volumeMounts =>
  let computeComponent : v1alpha2.RisingWaveComponent :=
    { computeComponent with
      NodeGroups :=
        (attachVolumesLoop src.Spec.Storages.PVCTemplates volumeMounts
          computeComponent.NodeGroups).1 }
  match buildV1alpha2RisingWaveComponent src.Spec.Global.Replicas.Frontend
      src.Spec.Components.Frontend.RestartAt src.Spec.Components.Frontend.Groups with
  | Except.error e => Except.error e
  | Except.ok frontendComponent =>
  match buildV1alpha2RisingWaveComponent src.Spec.Global.Replicas.Compactor
      src.Spec.Components.Compactor.RestartAt src.Spec.Components.Compactor.Groups with
  | Except.error e => Except.error e
  | Except.ok compactorComponent =>
  Except.ok
    ({ ObjectMeta := src.ObjectMeta
       Spec :=
         { dst.Spec with
           UseKruiseWorkloads := src.Spec.EnableOpenKruise
           SyncPrometheusServiceMonitor := src.Spec.EnableDefaultServiceMonitor
           FrontendServiceType := src.Spec.Global.ServiceType
           AdditionalFrontendServiceMetadata :=
             { Labels := src.Spec.Global.ServiceMeta.Labels
               Annotations := src.Spec.Global.ServiceMeta.Annotations }
           MetaStore := metaStore
           StateStore := stateStore
           Image := src.Spec.Global.RisingWaveComponentGroupTemplate.Image
           PodTemplate := podTemplate
           Configuration := configuration
           MetaComponent := metaComponent
           ComputeComponent := computeComponent
           FrontendComponent := frontendComponent
           CompactorComponent := compactorComponent }
       Status :=
         { dst.Status with
           ObservedGeneration := src.Status.ObservedGeneration
           Conditions := convertConditions src.Status.Conditions
           ImageTag := src.Status.Version
           MetaStore := { Backend := convertMetaStorageType src.Status.Storages.Meta.Type_ }
           StateStore := { Backend := convertObjectStorageType src.Status.Storages.Object.Type_ }
           MetaComponent := buildV1alpha2RisingWaveComponentStatus src.Status.ComponentReplicas.Meta
           ComputeComponent := buildV1alpha2RisingWaveComponentStatus src.Status.ComponentReplicas.Compute
           CompactorComponent := buildV1alpha2RisingWaveComponentStatus src.Status.ComponentReplicas.Compactor
           FrontendComponent := buildV1alpha2RisingWaveComponentStatus src.Status.ComponentReplicas.Frontend
           ScaleViewLocks := convertScaleViewLocks src.Status.ScaleViews } },
     none)

/-- `ConvertFrom`: the old-schema record `dst` after the call and the returned error. -/
def ConvertFrom (dst : RisingWave) (src : v1alpha2.RisingWave) : RisingWave × error :=
  ({ dst with ObjectMeta := src.ObjectMeta }, none)

end v1alpha1

namespace v1alpha2

/-- Number of populated branches of the hub state-store union; the one-of invariant of
the data model asks for exactly one. -/
def RisingWaveStateStoreBackend.populatedBranches (s : RisingWaveStateStoreBackend) : Nat :=
  s.Memory.isSome.toNat + s.MinIO.isSome.toNat + s.S3.isSome.toNat +
    s.S3C.isSome.toNat + s.HDFS.isSome.toNat + s.GCS.isSome.toNat

end v1alpha2

/-! ## Branch counts and sample records -/

namespace v1alpha1

/-- An S3 branch with a custom endpoint in virtual-hosted style. -/
def sampleS3VirtualHosted : RisingWaveObjectStorageS3 :=
  { Secret := "s3-credentials", Region := "us-east-1", Bucket := "hummock"
    Endpoint := "https://s3.example.com", VirtualHostedStyle := true }

/-- An S3 branch with a custom endpoint in path style. -/
def sampleS3PathStyle : RisingWaveObjectStorageS3 :=
  { Secret := "s3-credentials", Region := "us-east-1", Bucket := "hummock"
    Endpoint := "https://s3.example.com", VirtualHostedStyle := false }

/-- An AliyunOSS branch that asks for the internal endpoint. -/
def sampleAliyunOSS : RisingWaveObjectStorageAliyunOSS :=
  { Secret := "oss-credentials", Region := "cn-hangzhou", Bucket := "hummock"
    InternalEndpoint := true }

/-- A record that names a config map, has no named group and declares one volume-claim
template. -/
def sampleRecordWithVolumeClaim : RisingWave :=
  { Spec :=
      { Global := { Replicas := { Meta := 1, Frontend := 1, Compute := 1, Compactor := 1 } }
        Storages :=
          { PVCTemplates := [{ PersistentVolumeClaimPartialObjectMeta := { Name := "data" } }] }
        Configuration :=
          { ConfigMap := some { Name := "risingwave-config", Key := "risingwave.toml" } } } }

/-- A record on which `ConvertTo` completes (it names a config map and has no named
group) and whose status holds one scale-view lock with two group locks. -/
def sampleRecordWithLock : RisingWave :=
  { ObjectMeta := { json := "name: demo" }
    Spec :=
      { Global := { Replicas := { Meta := 1, Frontend := 1, Compute := 1, Compactor := 1 } }
        Configuration :=
          { ConfigMap := some { Name := "risingwave-config", Key := "risingwave.toml" } } }
    Status :=
      { ScaleViews :=
          [{ Name := "compute-view", UID := "4f1c", Generation := 7, Component := "compute"
             GroupLocks := [{ Name := "pool-a", Replicas := 3 }, { Name := "pool-b", Replicas := 5 }] }] } }

/-- A meta store with the Etcd branch populated and a secret. -/
def sampleMetaEtcd : RisingWaveMetaStorage :=
  { Etcd := some { Endpoint := "etcd:2379", Secret := "etcd-credentials" } }

/-- An object store with the S3 branch (custom endpoint) and the AliyunOSS branch both
populated. -/
def sampleS3AndAliyunOSS : RisingWaveObjectStorage :=
  { S3 := some sampleS3PathStyle, AliyunOSS := some sampleAliyunOSS }

/-- An object store with the MinIO branch and the HDFS branch both populated. -/
def sampleMinIOAndHDFS : RisingWaveObjectStorage :=
  { MinIO := some { Secret := "minio-credentials", Endpoint := "minio:9000", Bucket := "hummock" }
    HDFS := some { NameNode := "namenode:8020", Root := "/hummock" } }

/-- Number of populated branches of the old object-store union; the one-of invariant of
the data model asks for exactly one. -/
def RisingWaveObjectStorage.populatedBranches (s : RisingWaveObjectStorage) : Nat :=
  s.Memory.isSome.toNat + s.MinIO.isSome.toNat + s.S3.isSome.toNat +
    s.AliyunOSS.isSome.toNat + s.HDFS.isSome.toNat + s.GCS.isSome.toNat

/-- The record `sampleRecordWithVolumeClaim` without its volume-claim template. -/
def sampleRecordWithoutVolumeClaim : RisingWave :=
  { Spec :=
      { Global := { Replicas := { Meta := 1, Frontend := 1, Compute := 1, Compactor := 1 } }
        Configuration :=
          { ConfigMap := some { Name := "risingwave-config", Key := "risingwave.toml" } } } }

/-- A record on which `ConvertTo` completes, with two conditions and storage types that
are in neither lookup table. -/
def sampleRecordWithConditions : RisingWave :=
  { Spec :=
      { Global := { Replicas := { Meta := 1, Frontend := 1, Compute := 1, Compactor := 1 } }
        Configuration :=
          { ConfigMap := some { Name := "risingwave-config", Key := "risingwave.toml" } } }
    Status :=
      { Conditions :=
          [{ Type_ := "Running", Status := "True", LastTransitionTime := 1700000000
             Reason := "AllReady", Message := "all components are ready" },
           { Type_ := "Upgrading", Status := "False", LastTransitionTime := 1700000600
             Reason := "Idle", Message := "" }]
        Storages := { Meta := { Type_ := "Unknown" }, Object := { Type_ := "AzureBlob" } } } }

/-- Two named groups that carry rolling-update parameters. -/
def sampleGroupsWithRollingUpdate : List RisingWaveComponentGroup :=
  [{ Name := "a", Replicas := 3, UpgradeStrategy := { RollingUpdate := some {} } },
   { Name := "b", Replicas := 5
     UpgradeStrategy := { RollingUpdate := some { MaxSurge := some (intstr.IntOrString.int 1) } } }]

/-- An S3 branch in virtual-hosted style whose endpoint has the `http://` scheme. -/
def sampleS3Http : RisingWaveObjectStorageS3 :=
  { Secret := "s3-credentials", Region := "us-east-1", Bucket := "hummock"
    Endpoint := "http://minio.local:9000", VirtualHostedStyle := true }

/-- A record on which `ConvertTo` completes, whose object store has only the S3 branch
populated, with a custom endpoint, and whose status reports the S3 object storage. -/
def sampleRecordWithS3 : RisingWave :=
  { Spec :=
      { Global := { Replicas := { Meta := 1, Frontend := 1, Compute := 1, Compactor := 1 } }
        Storages := { Object := { S3 := some sampleS3PathStyle } }
        Configuration :=
          { ConfigMap := some { Name := "risingwave-config", Key := "risingwave.toml" } } }
    Status := { Storages := { Object := { Type_ := ObjectStorageTypeS3 } } } }

/-- A record with the named compute group `pool`, which mounts the volume `data`, and
with the volume-claim template `data`. -/
def sampleRecordWithComputeMounts : RisingWave :=
  { Spec :=
      { Global := { Replicas := { Meta := 1, Frontend := 1, Compute := 1, Compactor := 1 } }
        Storages :=
          { PVCTemplates := [{ PersistentVolumeClaimPartialObjectMeta := { Name := "data" } }] }
        Configuration :=
          { ConfigMap := some { Name := "risingwave-config", Key := "risingwave.toml" } }
        Components :=
          { Compute :=
              { Groups :=
                  [{ Name := "pool", Replicas := 2
                     RisingWaveComputeGroupTemplate := some
                       { VolumeMounts := [{ Name := "data", MountPath := "/data" }] } }] } } } }

/-- The record `sampleRecordWithComputeMounts` with other mounts on the group `pool` and
without volume-claim template. -/
def sampleRecordWithOtherComputeMounts : RisingWave :=
  { Spec :=
      { Global := { Replicas := { Meta := 1, Frontend := 1, Compute := 1, Compactor := 1 } }
        Configuration :=
          { ConfigMap := some { Name := "risingwave-config", Key := "risingwave.toml" } }
        Components :=
          { Compute :=
              { Groups :=
                  [{ Name := "pool", Replicas := 2
                     RisingWaveComputeGroupTemplate := some
                       { VolumeMounts := [{ Name := "logs", MountPath := "/var/log" }] } }] } } } }

/-- A GCS branch with workload identity and a secret. -/
def sampleGCS : RisingWaveObjectStorageGCS :=
  { UseWorkloadIdentity := true, Secret := "gcs-credentials", Bucket := "hummock"
    Root := "data" }

/-- A source with the volume-claim templates and the volume mounts of every compute group
removed: two sources differ only in these fields exactly when this gives the same record
for both. -/
def eraseVolumes (src : RisingWave) : RisingWave :=
  { src with
    Spec :=
      { src.Spec with
        Storages := { src.Spec.Storages with PVCTemplates := [] }
        Components :=
          { src.Spec.Components with
            Compute :=
              { src.Spec.Components.Compute with
                Groups := src.Spec.Components.Compute.Groups.map (fun g =>
                  { g with
                    RisingWaveComputeGroupTemplate :=
                      g.RisingWaveComputeGroupTemplate.map (fun t =>
                        { t with VolumeMounts := [] }) }) } } } }

end v1alpha1

/-! ## Properties -/

namespace strings

theorem HasPrefix_append (pre rest : String) : HasPrefix (pre ++ rest) pre = true := by
  simp [HasPrefix, String.data_append]

theorem sliceFrom_append (pre rest : String) : sliceFrom (pre ++ rest) pre = rest := by
  simp [sliceFrom, String.data_append]

theorem eq_append_of_HasPrefix (s pre : String) (h : HasPrefix s pre = true) :
    ∃ rest : String, s = pre ++ rest := by
  unfold HasPrefix at h
  rw [List.isPrefixOf_iff_prefix] at h
  obtain ⟨t, ht⟩ := h
  refine ⟨String.mk t, ?_⟩
  apply String.ext
  simp [String.data_append, ht]

end strings

namespace v1alpha1

/-! ### The blocks of the state-store closure and the fields they leave alone -/

theorem stateStoreMinIO_S3 (src : RisingWaveObjectStorage)
    (st : v1alpha2.RisingWaveStateStoreBackend) : ( stateStoreMinIO src st).S3 = st.S3 := by
  unfold stateStoreMinIO
  split <;> rfl

theorem stateStoreMinIO_S3C (src : RisingWaveObjectStorage)
    (st : v1alpha2.RisingWaveStateStoreBackend) : ( stateStoreMinIO src st).S3C = st.S3C := by
  unfold stateStoreMinIO
  split <;> rfl

theorem stateStoreHDFS_S3 (src : RisingWaveObjectStorage)
    (st : v1alpha2.RisingWaveStateStoreBackend) : (stateStoreHDFS src st).S3 = st.S3 := by
  unfold stateStoreHDFS
  split <;> rfl

theorem stateStoreHDFS_S3C (src : RisingWaveObjectStorage)
    (st : v1alpha2.RisingWaveStateStoreBackend) : (stateStoreHDFS src st).S3C = st.S3C := by
  unfold stateStoreHDFS
  split <;> rfl

theorem stateStoreGCS_S3 (src : RisingWaveObjectStorage)
    (st : v1alpha2.RisingWaveStateStoreBackend) : (stateStoreGCS src st).S3 = st.S3 := by
  unfold stateStoreGCS
  split <;> rfl

theorem stateStoreGCS_S3C (src : RisingWaveObjectStorage)
    (st : v1alpha2.RisingWaveStateStoreBackend) : (stateStoreGCS src st).S3C = st.S3C := by
  unfold stateStoreGCS
  split <;> rfl

theorem stateStoreAliyunOSS_S3 (src : RisingWaveObjectStorage)
    (st : v1alpha2.RisingWaveStateStoreBackend) : (stateStoreAliyunOSS src st).S3 = st.S3 := by
  unfold stateStoreAliyunOSS
  split <;> rfl

theorem stateStoreAliyunOSS_none (src : RisingWaveObjectStorage)
    (st : v1alpha2.RisingWaveStateStoreBackend) (h : src.AliyunOSS = none) :
    stateStoreAliyunOSS src st = st := by
  unfold stateStoreAliyunOSS
  rw [h]

/-- The S3-compatible value the S3 block builds from a source with an endpoint. -/
theorem stateStoreS3_endpoint (src : RisingWaveObjectStorage) (s3 : RisingWaveObjectStorageS3)
    (st : v1alpha2.RisingWaveStateStoreBackend)
    (hS3 : src.S3 = some s3) (hEndpoint : s3.Endpoint ≠ "") :
    stateStoreS3 src st = Except.ok
      { st with
        S3C := some
          { RisingWaveS3Credentials :=
              { SecretName := s3.Secret
                AccessKeyRef := some "AccessKeyID"
                SecretAccessKeyRef := some "SecretAccessKey" }
            Endpoint := s3cEndpoint s3
            Region := s3.Region
            Bucket := s3.Bucket } } := by
  unfold stateStoreS3
  rw [hS3]
  simp [hEndpoint]

/-- With an empty endpoint the S3 block reads through the S3 field of the target. -/
theorem stateStoreS3_empty_endpoint (src : RisingWaveObjectStorage) (s3 : RisingWaveObjectStorageS3)
    (st : v1alpha2.RisingWaveStateStoreBackend)
    (hS3 : src.S3 = some s3) (hEndpoint : s3.Endpoint = "") (hDst : st.S3 = none) :
    stateStoreS3 src st = Except.error Panic.nilPointerDereference := by
  unfold stateStoreS3
  rw [hS3]
  simp [hEndpoint, hDst, deref]

theorem stateStoreS3_none (src : RisingWaveObjectStorage)
    (st : v1alpha2.RisingWaveStateStoreBackend) (hS3 : src.S3 = none) :
    stateStoreS3 src st = Except.ok st := by
  unfold stateStoreS3
  rw [hS3]

/-- The closure on a source whose S3 branch has an endpoint: the later blocks run on the
target the S3 block returns. -/
theorem convertStateStore_S3_endpoint (src : RisingWaveObjectStorage)
    (s3 : RisingWaveObjectStorageS3) (hS3 : src.S3 = some s3) (hEndpoint : s3.Endpoint ≠ "") :
    ∃ dst, convertStateStore src = Except.ok dst ∧ dst.S3 = none ∧
      dst.S3C = (stateStoreAliyunOSS src
        { S3C := some
            { RisingWaveS3Credentials :=
                { SecretName := s3.Secret
                  AccessKeyRef := some "AccessKeyID"
                  SecretAccessKeyRef := some "SecretAccessKey" }
              Endpoint := s3cEndpoint s3
              Region := s3.Region
              Bucket := s3.Bucket } }).S3C := by
  unfold convertStateStore
  simp only [stateStoreS3_endpoint src s3 _ hS3 hEndpoint]
  refine ⟨_, rfl, ?_, ?_⟩
  · simp [stateStoreGCS_S3, stateStoreHDFS_S3, stateStoreAliyunOSS_S3, stateStoreMinIO_S3]
  · simp only [stateStoreGCS_S3C, stateStoreHDFS_S3C]
    unfold stateStoreAliyunOSS
    split <;> rfl

end v1alpha1

namespace v1alpha1

/-! ### The endpoint of the S3-compatible target -/

theorem s3cEndpoint_https (s3 : RisingWaveObjectStorageS3) (rest : String)
    (hStyle : s3.VirtualHostedStyle = true) (hEndpoint : s3.Endpoint = "https://" ++ rest) :
    s3cEndpoint s3 = "https://" ++ "${BUCKET}" ++ rest := by
  unfold s3cEndpoint
  rw [hStyle, hEndpoint]
  simp only [strings.HasPrefix_append, strings.sliceFrom_append, if_true]
  rfl

theorem s3cEndpoint_no_scheme (s3 : RisingWaveObjectStorageS3)
    (hStyle : s3.VirtualHostedStyle = true)
    (hEndpoint : ¬ ∃ rest : String, s3.Endpoint = "https://" ++ rest) :
    s3cEndpoint s3 = "${BUCKET}" ++ s3.Endpoint := by
  unfold s3cEndpoint
  rw [hStyle]
  cases hPrefix : strings.HasPrefix s3.Endpoint "https://" with
  | true => exact absurd (strings.eq_append_of_HasPrefix _ _ hPrefix) hEndpoint
  | false => simp

theorem s3cEndpoint_path_style (s3 : RisingWaveObjectStorageS3)
    (hStyle : s3.VirtualHostedStyle = false) : s3cEndpoint s3 = s3.Endpoint := by
  unfold s3cEndpoint
  rw [hStyle]
  simp

end v1alpha1

namespace v1alpha1

/-! ### Totality of the forward conversion (C1) -/

/-- C1, evaluated at the old-schema record in which every optional field is absent:
`ConvertTo` does not complete on it.  The operand of `.Else(...)` in the configuration
reads the name through the nil `ConfigMap` pointer, so the call panics with a nil
dereference, whatever hub record it is given to fill. -/
theorem ConvertTo_empty_record_panics (dst : v1alpha2.RisingWave) :
    ConvertTo {} dst = Except.error Panic.nilPointerDereference :=
  rfl

/-! ### The state store (C2 to C6) -/

/-- C2, evaluated on every source whose S3 branch has an empty endpoint and whose other
branches are absent: the state-store mapping of `ConvertTo` yields no value.  The native
S3 literal takes region and bucket from `stateStore.S3`, the nil S3 field of the target
under construction, and panics. -/
theorem convertStateStore_S3_empty_endpoint_panics (secret region bucket : String)
    (style : Bool) :
    convertStateStore
      { S3 := some { Secret := secret, Region := region, Bucket := bucket, Endpoint := ""
                     VirtualHostedStyle := style } } =
      Except.error Panic.nilPointerDereference := by
  unfold convertStateStore
  simp [stateStoreS3, stateStoreMinIO, deref]

/-- C3, evaluated at endpoint `"https://s3.example.com"` with virtual-hosted style: the
S3-compatible endpoint the code produces is `"https://${BUCKET}s3.example.com"`, with no
dot between the placeholder and the host, which is not the endpoint of the claim. -/
theorem convertStateStore_example_endpoint (secret region bucket : String) :
    convertStateStore
      { S3 := some { Secret := secret, Region := region, Bucket := bucket
                     Endpoint := "https://s3.example.com", VirtualHostedStyle := true } } =
      Except.ok
        { S3C := some
            { RisingWaveS3Credentials :=
                { SecretName := secret
                  AccessKeyRef := some "AccessKeyID"
                  SecretAccessKeyRef := some "SecretAccessKey" }
              Endpoint := "https://${BUCKET}s3.example.com"
              Region := region
              Bucket := bucket } } ∧
    "https://${BUCKET}s3.example.com" ≠ "https://${BUCKET}.s3.example.com" := by
  constructor
  · rfl
  · decide

end v1alpha1

namespace v1alpha1

/-- C4: for a source S3 branch with a non-empty endpoint and virtual-hosted style, the S3
block of the state-store mapping populates the S3-compatible field of the target (and
leaves every other field, the native S3 field included, as it was); for a source with no
AliyunOSS branch that value is the S3-compatible branch of the mapping's result, whose
native S3 branch is absent.  Its endpoint is `"https://" ++ "${BUCKET}" ++ rest` when the
source endpoint is `"https://" ++ rest` and `"${BUCKET}" ++ e` when the source endpoint
`e` does not start with `"https://"`; region, bucket and secret name are the source's. -/
theorem stateStore_S3_virtual_hosted (srcStateStore : RisingWaveObjectStorage)
    (s3 : RisingWaveObjectStorageS3) (hS3 : srcStateStore.S3 = some s3)
    (hEndpoint : s3.Endpoint ≠ "") (hStyle : s3.VirtualHostedStyle = true) :
    ∃ s3c : v1alpha2.RisingWaveStateStoreBackendS3C,
      (∀ stateStore, stateStoreS3 srcStateStore stateStore =
        Except.ok { stateStore with S3C := some s3c }) ∧
      (srcStateStore.AliyunOSS = none →
        ∃ dst, convertStateStore srcStateStore = Except.ok dst ∧
          dst.S3C = some s3c ∧ dst.S3 = none) ∧
      (∀ rest : String, s3.Endpoint = "https://" ++ rest →
        s3c.Endpoint = "https://" ++ "${BUCKET}" ++ rest) ∧
      ((¬ ∃ rest : String, s3.Endpoint = "https://" ++ rest) →
        s3c.Endpoint = "${BUCKET}" ++ s3.Endpoint) ∧
      s3c.Region = s3.Region ∧ s3c.Bucket = s3.Bucket ∧
      s3c.RisingWaveS3Credentials.SecretName = s3.Secret := by
  refine ⟨_, fun stateStore => stateStoreS3_endpoint srcStateStore s3 stateStore hS3 hEndpoint,
    ?_, ?_, ?_, rfl, rfl, rfl⟩
  · intro hOSS
    obtain ⟨dst, hDst, hNative, hCompatible⟩ :=
      convertStateStore_S3_endpoint srcStateStore s3 hS3 hEndpoint
    refine ⟨dst, hDst, ?_, hNative⟩
    rw [hCompatible, stateStoreAliyunOSS_none _ _ hOSS]
  · intro rest hRest
    exact s3cEndpoint_https s3 rest hStyle hRest
  · intro hNoScheme
    exact s3cEndpoint_no_scheme s3 hStyle hNoScheme

theorem stateStore_S3_virtual_hosted_witness :
    sampleS3VirtualHosted.Endpoint ≠ "" ∧ sampleS3VirtualHosted.VirtualHostedStyle = true ∧
    ∃ s3c : v1alpha2.RisingWaveStateStoreBackendS3C,
      (∀ stateStore, stateStoreS3 { S3 := some sampleS3VirtualHosted } stateStore =
        Except.ok { stateStore with S3C := some s3c }) ∧
      ((({ S3 := some sampleS3VirtualHosted } : RisingWaveObjectStorage).AliyunOSS = none) →
        ∃ dst, convertStateStore { S3 := some sampleS3VirtualHosted } = Except.ok dst ∧
          dst.S3C = some s3c ∧ dst.S3 = none) ∧
      (∀ rest : String, sampleS3VirtualHosted.Endpoint = "https://" ++ rest →
        s3c.Endpoint = "https://" ++ "${BUCKET}" ++ rest) ∧
      ((¬ ∃ rest : String, sampleS3VirtualHosted.Endpoint = "https://" ++ rest) →
        s3c.Endpoint = "${BUCKET}" ++ sampleS3VirtualHosted.Endpoint) ∧
      s3c.Region = sampleS3VirtualHosted.Region ∧ s3c.Bucket = sampleS3VirtualHosted.Bucket ∧
      s3c.RisingWaveS3Credentials.SecretName = sampleS3VirtualHosted.Secret :=
  ⟨by decide, rfl,
    stateStore_S3_virtual_hosted { S3 := some sampleS3VirtualHosted } sampleS3VirtualHosted rfl
      (by decide) rfl⟩

/-- C5: for a source S3 branch with a non-empty endpoint `e` and virtual-hosted style off,
the S3 block of the state-store mapping populates the S3-compatible field of the target
with endpoint `e`, unchanged; for a source with no AliyunOSS branch that value is the
S3-compatible branch of the mapping's result. -/
theorem stateStore_S3_path_style (srcStateStore : RisingWaveObjectStorage)
    (s3 : RisingWaveObjectStorageS3) (hS3 : srcStateStore.S3 = some s3)
    (hEndpoint : s3.Endpoint ≠ "") (hStyle : s3.VirtualHostedStyle = false) :
    ∃ s3c : v1alpha2.RisingWaveStateStoreBackendS3C,
      (∀ stateStore, stateStoreS3 srcStateStore stateStore =
        Except.ok { stateStore with S3C := some s3c }) ∧
      (srcStateStore.AliyunOSS = none →
        ∃ dst, convertStateStore srcStateStore = Except.ok dst ∧ dst.S3C = some s3c) ∧
      s3c.Endpoint = s3.Endpoint := by
  refine ⟨_, fun stateStore => stateStoreS3_endpoint srcStateStore s3 stateStore hS3 hEndpoint,
    ?_, s3cEndpoint_path_style s3 hStyle⟩
  intro hOSS
  obtain ⟨dst, hDst, _, hCompatible⟩ :=
    convertStateStore_S3_endpoint srcStateStore s3 hS3 hEndpoint
  refine ⟨dst, hDst, ?_⟩
  rw [hCompatible, stateStoreAliyunOSS_none _ _ hOSS]

theorem stateStore_S3_path_style_witness :
    sampleS3PathStyle.Endpoint ≠ "" ∧ sampleS3PathStyle.VirtualHostedStyle = false ∧
    ∃ s3c : v1alpha2.RisingWaveStateStoreBackendS3C,
      (∀ stateStore, stateStoreS3 { S3 := some sampleS3PathStyle } stateStore =
        Except.ok { stateStore with S3C := some s3c }) ∧
      ((({ S3 := some sampleS3PathStyle } : RisingWaveObjectStorage).AliyunOSS = none) →
        ∃ dst, convertStateStore { S3 := some sampleS3PathStyle } = Except.ok dst ∧
          dst.S3C = some s3c) ∧
      s3c.Endpoint = sampleS3PathStyle.Endpoint :=
  ⟨by decide, rfl,
    stateStore_S3_path_style { S3 := some sampleS3PathStyle } sampleS3PathStyle rfl
      (by decide) rfl⟩

end v1alpha1

namespace v1alpha1

/-- The AliyunOSS block writes the S3-compatible field whatever the target held. -/
theorem stateStoreAliyunOSS_some (src : RisingWaveObjectStorage)
    (oss : RisingWaveObjectStorageAliyunOSS) (st : v1alpha2.RisingWaveStateStoreBackend)
    (hOSS : src.AliyunOSS = some oss) :
    stateStoreAliyunOSS src st =
      { st with
        S3C := some
          { RisingWaveS3Credentials :=
              { SecretName := oss.Secret
                AccessKeyRef := some "AccessKeyID"
                SecretAccessKeyRef := some "SecretAccessKey" }
            Endpoint := lo.IfElse oss.InternalEndpoint internalAliyunOSSEndpoint aliyunOSSEndpoint
            Region := oss.Region
            Bucket := oss.Bucket } } := by
  unfold stateStoreAliyunOSS
  rw [hOSS]

/-- The state-store closure completes exactly when the S3 block does. -/
theorem convertStateStore_ok_of_S3 (src : RisingWaveObjectStorage)
    (hS3 : ∀ s3, src.S3 = some s3 → s3.Endpoint ≠ "") :
    ∃ dst, convertStateStore src = Except.ok dst := by
  unfold convertStateStore
  cases hBranch : src.S3 with
  | none => simp only [stateStoreS3_none _ _ hBranch]; exact ⟨_, rfl⟩
  | some s3 =>
    simp only [stateStoreS3_endpoint src s3 _ hBranch (hS3 s3 hBranch)]
    exact ⟨_, rfl⟩

/-- C6: for a source with the AliyunOSS branch populated, the AliyunOSS block of the
state-store mapping populates the S3-compatible field of the target, whatever it held,
and that value is the S3-compatible branch of every result of the mapping (a result
exists as soon as the S3 block completes).  The endpoint is exactly
`"${BUCKET}.oss-${REGION}-internal.aliyuncs.com"` when the internal-endpoint flag is true
and exactly `"${BUCKET}.oss-${REGION}.aliyuncs.com"` when it is false; the key refs are
`"AccessKeyID"` and `"SecretAccessKey"`; secret, region and bucket are those of the
AliyunOSS branch. -/
theorem stateStore_AliyunOSS (srcStateStore : RisingWaveObjectStorage)
    (oss : RisingWaveObjectStorageAliyunOSS) (hOSS : srcStateStore.AliyunOSS = some oss) :
    ∃ s3c : v1alpha2.RisingWaveStateStoreBackendS3C,
      (∀ stateStore, stateStoreAliyunOSS srcStateStore stateStore =
        { stateStore with S3C := some s3c }) ∧
      (∀ dst, convertStateStore srcStateStore = Except.ok dst → dst.S3C = some s3c) ∧
      ((∀ s3, srcStateStore.S3 = some s3 → s3.Endpoint ≠ "") →
        ∃ dst, convertStateStore srcStateStore = Except.ok dst) ∧
      (oss.InternalEndpoint = true →
        s3c.Endpoint = "${BUCKET}.oss-${REGION}-internal.aliyuncs.com") ∧
      (oss.InternalEndpoint = false →
        s3c.Endpoint = "${BUCKET}.oss-${REGION}.aliyuncs.com") ∧
      s3c.RisingWaveS3Credentials.AccessKeyRef = some "AccessKeyID" ∧
      s3c.RisingWaveS3Credentials.SecretAccessKeyRef = some "SecretAccessKey" ∧
      s3c.RisingWaveS3Credentials.SecretName = oss.Secret ∧
      s3c.Region = oss.Region ∧ s3c.Bucket = oss.Bucket := by
  refine ⟨_, fun stateStore => stateStoreAliyunOSS_some srcStateStore oss stateStore hOSS,
    ?_, convertStateStore_ok_of_S3 srcStateStore, ?_, ?_, rfl, rfl, rfl, rfl, rfl⟩
  · intro dst hDst
    unfold convertStateStore at hDst
    simp only at hDst
    cases hStep : stateStoreS3 srcStateStore
        ( stateStoreMinIO srcStateStore { Memory := srcStateStore.Memory }) with
    | error e => rw [hStep] at hDst; cases hDst
    | ok stateStore =>
      rw [hStep] at hDst
      cases hDst
      rw [stateStoreGCS_S3C, stateStoreHDFS_S3C, stateStoreAliyunOSS_some _ oss _ hOSS]
  · intro hInternal
    simp [hInternal, lo.IfElse, internalAliyunOSSEndpoint]
  · intro hExternal
    simp [hExternal, lo.IfElse, aliyunOSSEndpoint]

theorem stateStore_AliyunOSS_witness :
    ∃ s3c : v1alpha2.RisingWaveStateStoreBackendS3C,
      (∀ stateStore, stateStoreAliyunOSS { AliyunOSS := some sampleAliyunOSS } stateStore =
        { stateStore with S3C := some s3c }) ∧
      (∀ dst, convertStateStore { AliyunOSS := some sampleAliyunOSS } = Except.ok dst →
        dst.S3C = some s3c) ∧
      ((∀ s3, ({ AliyunOSS := some sampleAliyunOSS } : RisingWaveObjectStorage).S3 = some s3 →
          s3.Endpoint ≠ "") →
        ∃ dst, convertStateStore { AliyunOSS := some sampleAliyunOSS } = Except.ok dst) ∧
      (sampleAliyunOSS.InternalEndpoint = true →
        s3c.Endpoint = "${BUCKET}.oss-${REGION}-internal.aliyuncs.com") ∧
      (sampleAliyunOSS.InternalEndpoint = false →
        s3c.Endpoint = "${BUCKET}.oss-${REGION}.aliyuncs.com") ∧
      s3c.RisingWaveS3Credentials.AccessKeyRef = some "AccessKeyID" ∧
      s3c.RisingWaveS3Credentials.SecretAccessKeyRef = some "SecretAccessKey" ∧
      s3c.RisingWaveS3Credentials.SecretName = sampleAliyunOSS.Secret ∧
      s3c.Region = sampleAliyunOSS.Region ∧ s3c.Bucket = sampleAliyunOSS.Bucket :=
  stateStore_AliyunOSS { AliyunOSS := some sampleAliyunOSS } sampleAliyunOSS rfl

end v1alpha1

namespace v1alpha1

/-! ### Node groups and components (C7 to C10) -/

theorem buildV1alpha2RisingWaveNodeGroup_some (src : RisingWaveComponentGroup)
    (rollingUpdate : RisingWaveRollingUpdate)
    (h : src.UpgradeStrategy.RollingUpdate = some rollingUpdate) :
    buildV1alpha2RisingWaveNodeGroup src = Except.ok
      { Name := src.Name
        Replicas := src.Replicas
        UpgradeStrategy :=
          { Type_ := src.UpgradeStrategy.Type_
            RollingUpdate := none
            InPlaceUpdateStrategy := src.UpgradeStrategy.InPlaceUpdateStrategy }
        Template := buildV1alpha2RisingWaveNodePodTemplate src.RisingWaveComponentGroupTemplate } := by
  unfold buildV1alpha2RisingWaveNodeGroup
  rw [h]
  rfl

theorem buildV1alpha2RisingWaveNodeGroup_none (src : RisingWaveComponentGroup)
    (h : src.UpgradeStrategy.RollingUpdate = none) :
    buildV1alpha2RisingWaveNodeGroup src = Except.error Panic.nilPointerDereference := by
  unfold buildV1alpha2RisingWaveNodeGroup
  rw [h]
  rfl

/-- A left fold whose step keeps the first component of the state returns it. -/
theorem foldl_fst_kept {σ τ ε : Type} (step : σ × τ → ε → τ) (xs : List ε) (s : σ) (t : τ) :
    (xs.foldl (fun state x => (state.1, step state x)) (s, t)).1 = s := by
  induction xs generalizing t with
  | nil => rfl
  | cons x rest ih => exact ih _

/-- The loop over the compute node groups returns the slice it was given. -/
theorem attachVolumesLoop_slice (pvcTemplates : List PersistentVolumeClaim)
    (volumeMounts : List (String × List corev1.VolumeMount))
    (nodeGroups : List v1alpha2.RisingWaveNodeGroup) :
    (attachVolumesLoop pvcTemplates volumeMounts nodeGroups).1 = nodeGroups := by
  unfold attachVolumesLoop
  exact foldl_fst_kept _ nodeGroups nodeGroups none

/-- C7, evaluated at a record that names a config map, has no named compute group and
declares the volume-claim template `data`: `ConvertTo` completes, and the only node group
of the converted compute component, the synthetic default group, carries no volume-claim
template although the converted template list is not empty.  The loop that attaches
templates and mounts assigns to its range variable, a copy of the slice element. -/
theorem ConvertTo_compute_volume_claims_dropped (dst : v1alpha2.RisingWave) :
    ∃ hub : v1alpha2.RisingWave,
      ConvertTo sampleRecordWithVolumeClaim dst = Except.ok (hub, none) ∧
      hub.Spec.ComputeComponent.NodeGroups =
        [{ Name := "", Replicas := 1, RestartAt := none, VolumeClaimTemplates := [] }] ∧
      convertPVCTemplates sampleRecordWithVolumeClaim.Spec.Storages.PVCTemplates =
        [{ PersistentVolumeClaimPartialObjectMeta := { Name := "data" } }] :=
  ⟨_, rfl, rfl, rfl⟩

/-- C8, evaluated on every group whose upgrade strategy carries rolling-update
parameters: the converted node group keeps the strategy type and the in-place update
strategy, and its rolling-update record is absent.  `lo.If` is given the condition
`RollingUpdate != nil` with the nil pointer as its operand, so the record built for
`Else` is never chosen. -/
theorem buildV1alpha2RisingWaveNodeGroup_rolling_update_dropped (name : String)
    (replicas : Int) (strategyType : RisingWaveUpgradeStrategyType)
    (rollingUpdate : RisingWaveRollingUpdate)
    (inPlace : Option kruisepubs.InPlaceUpdateStrategy)
    (template : Option RisingWaveComponentGroupTemplate) :
    buildV1alpha2RisingWaveNodeGroup
      { Name := name, Replicas := replicas
        UpgradeStrategy :=
          { Type_ := strategyType, RollingUpdate := some rollingUpdate
            InPlaceUpdateStrategy := inPlace }
        RisingWaveComponentGroupTemplate := template } =
      Except.ok
        { Name := name, Replicas := replicas
          UpgradeStrategy :=
            { Type_ := strategyType, RollingUpdate := none, InPlaceUpdateStrategy := inPlace }
          Template := buildV1alpha2RisingWaveNodePodTemplate template } :=
  rfl

/-- C9, evaluated at the two named groups with replicas 3 and 5 and default count 2, the
groups carrying no rolling-update parameters: `buildV1alpha2RisingWaveComponent` returns
no component.  The operand of `.Else(...)` in `buildV1alpha2RisingWaveNodeGroup` reads
through the nil `RollingUpdate` pointer and the call panics. -/
theorem buildV1alpha2RisingWaveComponent_example_panics (restartAt : Option metav1.Time) :
    buildV1alpha2RisingWaveComponent 2 restartAt
      [{ Name := "a", Replicas := 3 }, { Name := "b", Replicas := 5 }] =
      Except.error Panic.nilPointerDereference :=
  rfl

/-- C10, evaluated on every one-element list whose group carries no rolling-update
parameters: `buildV1alpha2RisingWaveComponent` returns no node group for index 0, it
panics in `buildV1alpha2RisingWaveNodeGroup`. -/
theorem buildV1alpha2RisingWaveComponent_single_group_panics (replicasOfDefaultGroup : Int)
    (restartAt : Option metav1.Time) (name : String) (replicas : Int)
    (strategyType : RisingWaveUpgradeStrategyType)
    (inPlace : Option kruisepubs.InPlaceUpdateStrategy)
    (template : Option RisingWaveComponentGroupTemplate) :
    buildV1alpha2RisingWaveComponent replicasOfDefaultGroup restartAt
      [{ Name := name, Replicas := replicas
         UpgradeStrategy :=
           { Type_ := strategyType, RollingUpdate := none, InPlaceUpdateStrategy := inPlace }
         RisingWaveComponentGroupTemplate := template }] =
      Except.error Panic.nilPointerDereference :=
  rfl

end v1alpha1

namespace lo

theorem MapM_ok {α β : Type} (xs : List α) (f : α → Except Panic β) (g : α → β)
    (h : ∀ x ∈ xs, f x = Except.ok (g x)) : MapM xs f = Except.ok (xs.map g) := by
  induction xs with
  | nil => rfl
  | cons x rest ih =>
    have hHead : f x = Except.ok (g x) := h x (List.mem_cons_self x rest)
    have hTail : MapM rest f = Except.ok (rest.map g) :=
      ih (fun y hy => h y (List.mem_cons_of_mem x hy))
    simp [MapM, hHead, hTail]

end lo

namespace v1alpha1

/-- On a list whose groups all carry rolling-update parameters the component is built:
one node group per source group, in order, followed by the synthetic default group. -/
theorem buildV1alpha2RisingWaveComponent_ok (replicasOfDefaultGroup : Int)
    (restartAt : Option metav1.Time) (groups : List RisingWaveComponentGroup)
    (h : ∀ group ∈ groups, group.UpgradeStrategy.RollingUpdate ≠ none) :
    buildV1alpha2RisingWaveComponent replicasOfDefaultGroup restartAt groups = Except.ok
      { LogLevel := "INFO"
        NodeGroups :=
          groups.map (fun group =>
            { Name := group.Name
              Replicas := group.Replicas
              RestartAt := restartAt
              UpgradeStrategy :=
                { Type_ := group.UpgradeStrategy.Type_
                  RollingUpdate := none
                  InPlaceUpdateStrategy := group.UpgradeStrategy.InPlaceUpdateStrategy }
              Template :=
                buildV1alpha2RisingWaveNodePodTemplate group.RisingWaveComponentGroupTemplate }) ++
          [{ Name := "", Replicas := replicasOfDefaultGroup, RestartAt := restartAt }] } := by
  unfold buildV1alpha2RisingWaveComponent
  rw [lo.MapM_ok groups _ (fun group =>
      { Name := group.Name
        Replicas := group.Replicas
        RestartAt := restartAt
        UpgradeStrategy :=
          { Type_ := group.UpgradeStrategy.Type_
            RollingUpdate := none
            InPlaceUpdateStrategy := group.UpgradeStrategy.InPlaceUpdateStrategy }
        Template :=
          buildV1alpha2RisingWaveNodePodTemplate group.RisingWaveComponentGroupTemplate })]
  intro group hGroup
  cases hRolling : group.UpgradeStrategy.RollingUpdate with
  | none => exact absurd hRolling (h group hGroup)
  | some rollingUpdate =>
    rw [buildV1alpha2RisingWaveNodeGroup_some group rollingUpdate hRolling]

end v1alpha1

namespace v1alpha1

/-! ### What `ConvertTo` returns when it completes -/

/-- When `ConvertTo` completes, every part it calls has completed, the hub record is
assembled from their results and the returned error is nil. -/
theorem ConvertTo_ok (src : RisingWave) (dst hub : v1alpha2.RisingWave) (err : error)
    (h : ConvertTo src dst = Except.ok (hub, err)) :
    err = none ∧
    hub.ObjectMeta = src.ObjectMeta ∧
    hub.Spec.MetaStore = convertMetaStore src.Spec.Storages.Meta ∧
    convertStateStore src.Spec.Storages.Object = Except.ok hub.Spec.StateStore ∧
    convertConfiguration src.Spec.Configuration = Except.ok hub.Spec.Configuration ∧
    buildV1alpha2RisingWaveComponent src.Spec.Global.Replicas.Meta
      src.Spec.Components.Meta.RestartAt src.Spec.Components.Meta.Groups =
        Except.ok hub.Spec.MetaComponent ∧
    (∃ computeGroups,
      lo.MapM src.Spec.Components.Compute.Groups computeGroupToComponentGroup =
        Except.ok computeGroups ∧
      buildV1alpha2RisingWaveComponent src.Spec.Global.Replicas.Compute
        src.Spec.Components.Compute.RestartAt computeGroups =
          Except.ok hub.Spec.ComputeComponent) ∧
    buildV1alpha2RisingWaveComponent src.Spec.Global.Replicas.Frontend
      src.Spec.Components.Frontend.RestartAt src.Spec.Components.Frontend.Groups =
        Except.ok hub.Spec.FrontendComponent ∧
    buildV1alpha2RisingWaveComponent src.Spec.Global.Replicas.Compactor
      src.Spec.Components.Compactor.RestartAt src.Spec.Components.Compactor.Groups =
        Except.ok hub.Spec.CompactorComponent ∧
    hub.Status.Conditions = convertConditions src.Status.Conditions ∧
    hub.Status.MetaStore.Backend = convertMetaStorageType src.Status.Storages.Meta.Type_ ∧
    hub.Status.StateStore.Backend = convertObjectStorageType src.Status.Storages.Object.Type_ ∧
    hub.Status.ScaleViewLocks = convertScaleViewLocks src.Status.ScaleViews := by
  unfold ConvertTo at h
  simp only at h
  cases hState : convertStateStore src.Spec.Storages.Object with
  | error e => simp [hState] at h
  | ok stateStore =>
  simp only [hState] at h
  cases hConfig : convertConfiguration src.Spec.Configuration with
  | error e => simp [hConfig] at h
  | ok configuration =>
  simp only [hConfig] at h
  cases hMeta : buildV1alpha2RisingWaveComponent src.Spec.Global.Replicas.Meta
      src.Spec.Components.Meta.RestartAt src.Spec.Components.Meta.Groups with
  | error e => simp [hMeta] at h
  | ok metaComponent =>
  simp only [hMeta] at h
  cases hGroups : lo.MapM src.Spec.Components.Compute.Groups computeGroupToComponentGroup with
  | error e => simp [hGroups] at h
  | ok computeGroups =>
  simp only [hGroups] at h
  cases hCompute : buildV1alpha2RisingWaveComponent src.Spec.Global.Replicas.Compute
      src.Spec.Components.Compute.RestartAt computeGroups with
  | error e => simp [hCompute] at h
  | ok computeComponent =>
  simp only [hCompute] at h
  cases hMounts : buildVolumeMounts src.Spec.Components.Compute.Groups [] with
  | error e => simp [hMounts] at h
  | ok volumeMounts =>
  simp only [hMounts] at h
  cases hFrontend : buildV1alpha2RisingWaveComponent src.Spec.Global.Replicas.Frontend
      src.Spec.Components.Frontend.RestartAt src.Spec.Components.Frontend.Groups with
  | error e => simp [hFrontend] at h
  | ok frontendComponent =>
  simp only [hFrontend] at h
  cases hCompactor : buildV1alpha2RisingWaveComponent src.Spec.Global.Replicas.Compactor
      src.Spec.Components.Compactor.RestartAt src.Spec.Components.Compactor.Groups with
  | error e => simp [hCompactor] at h
  | ok compactorComponent =>
  simp only [hCompactor] at h
  simp only [Except.ok.injEq, Prod.mk.injEq] at h
  obtain ⟨hHub, hErr⟩ := h
  subst hHub
  refine ⟨hErr.symm, rfl, rfl, rfl, rfl, rfl, ⟨computeGroups, rfl, ?_⟩, rfl, rfl, rfl, rfl, rfl, rfl⟩
  simp only [attachVolumesLoop_slice]
  exact hCompute

end v1alpha1

namespace v1alpha1

/-! ### Component status (C11) -/

/-- C11: for every per-component replica status with target `T` and running `R`,
`buildV1alpha2RisingWaveComponentStatus` returns the total `{Replicas = T, ReadyReplicas =
R, AvailableReplicas = R, UpdatedReplicas = R, UnavailableReplicas = 0}`; two inputs with
the same `T` and `R` and any two per-group lists give the same total; and `T = 5`,
`R = 3` gives `{5, 3, 3, 3, 0}`. -/
theorem buildV1alpha2RisingWaveComponentStatus_total :
    (∀ src : ComponentReplicasStatus,
      (buildV1alpha2RisingWaveComponentStatus src).Total =
        { Replicas := src.Target
          ReadyReplicas := src.Running
          AvailableReplicas := src.Running
          UpdatedReplicas := src.Running
          UnavailableReplicas := 0 }) ∧
    (∀ (target running : Int) (groups groups' : List ComponentGroupReplicasStatus),
      (buildV1alpha2RisingWaveComponentStatus
          { Target := target, Running := running, Groups := groups }).Total =
        (buildV1alpha2RisingWaveComponentStatus
          { Target := target, Running := running, Groups := groups' }).Total) ∧
    (∀ groups : List ComponentGroupReplicasStatus,
      (buildV1alpha2RisingWaveComponentStatus
          { Target := 5, Running := 3, Groups := groups }).Total =
        { Replicas := 5, ReadyReplicas := 3, AvailableReplicas := 3, UpdatedReplicas := 3
          UnavailableReplicas := 0 }) :=
  ⟨fun _ => rfl, fun _ _ _ _ => rfl, fun _ => rfl⟩

/-! ### Scale-view locks (C12 to C14) -/

theorem convertScaleViewLocks_length (scaleViews : List RisingWaveScaleViewLock) :
    (convertScaleViewLocks scaleViews).length = scaleViews.length := by
  simp [convertScaleViewLocks, lo.Map]

theorem convertScaleViewLocks_getElem? (scaleViews : List RisingWaveScaleViewLock) (i : Nat) :
    (convertScaleViewLocks scaleViews)[i]? =
      scaleViews[i]?.map (fun l =>
        { Reference := { Name := l.Name, UID := l.UID, ObservedGeneration := l.Generation }
          Component := l.Component
          Locks := l.GroupLocks.map (fun gl => { Name := gl.Name, Replicas := gl.Replicas }) }) := by
  simp [convertScaleViewLocks, lo.Map]

/-- C12: the scale-view lock mapping of `ConvertTo` copies verbatim.  The lock list of the
hub record is the converted list whenever `ConvertTo` completes; the converted list has
the length of the source list; whenever the source list has an `i`-th lock the converted
list has one too, with reference `(name, uid, observedGeneration)` equal to the source's
`(name, uid, generation)`, the same component and a lock list of the same length whose
`j`-th entry has the group name and replica ceiling of the source's `j`-th group lock. -/
theorem ConvertTo_scale_view_locks_verbatim (src : RisingWave) :
    (∀ (dst hub : v1alpha2.RisingWave) (err : error),
      ConvertTo src dst = Except.ok (hub, err) →
        hub.Status.ScaleViewLocks = convertScaleViewLocks src.Status.ScaleViews) ∧
    (convertScaleViewLocks src.Status.ScaleViews).length = src.Status.ScaleViews.length ∧
    (∀ (i : Nat) (l : RisingWaveScaleViewLock), src.Status.ScaleViews[i]? = some l →
      ∃ l' : v1alpha2.RisingWaveScaleViewLock,
        (convertScaleViewLocks src.Status.ScaleViews)[i]? = some l' ∧
        l'.Reference.Name = l.Name ∧ l'.Reference.UID = l.UID ∧
        l'.Reference.ObservedGeneration = l.Generation ∧
        l'.Component = l.Component ∧
        l'.Locks.length = l.GroupLocks.length ∧
        (∀ (j : Nat) (gl : RisingWaveScaleViewLockGroupLock), l.GroupLocks[j]? = some gl →
          ∃ gl' : v1alpha2.RisingWaveScaleViewNodeGroupLock,
            l'.Locks[j]? = some gl' ∧ gl'.Name = gl.Name ∧ gl'.Replicas = gl.Replicas)) := by
  refine ⟨?_, convertScaleViewLocks_length _, ?_⟩
  · intro dst hub err h
    exact (ConvertTo_ok src dst hub err h).2.2.2.2.2.2.2.2.2.2.2.2
  · intro i l hl
    refine ⟨{ Reference := { Name := l.Name, UID := l.UID, ObservedGeneration := l.Generation }
              Component := l.Component
              Locks := l.GroupLocks.map (fun gl => { Name := gl.Name, Replicas := gl.Replicas }) },
      ?_, rfl, rfl, rfl, rfl, ?_, ?_⟩
    · rw [convertScaleViewLocks_getElem?, hl]
      rfl
    · simp
    · intro j gl hgl
      refine ⟨{ Name := gl.Name, Replicas := gl.Replicas }, ?_, rfl, rfl⟩
      simp [hgl]

theorem ConvertTo_scale_view_locks_verbatim_witness :
    ∃ hub : v1alpha2.RisingWave,
      ConvertTo sampleRecordWithLock {} = Except.ok (hub, none) ∧
      hub.Status.ScaleViewLocks =
        [{ Reference := { Name := "compute-view", UID := "4f1c", ObservedGeneration := 7 }
           Component := "compute"
           Locks := [{ Name := "pool-a", Replicas := 3 }, { Name := "pool-b", Replicas := 5 }] }] :=
  ⟨_, rfl, (ConvertTo_scale_view_locks_verbatim sampleRecordWithLock).1 {} _ none rfl⟩

end v1alpha1

namespace v1alpha1

/-- C13: the scale-view lock mapping is a bijection from old-schema lock lists to
new-schema lock lists: two source lists with equal converted lists are equal, and every
new-schema lock list is the conversion of some old-schema lock list. -/
theorem convertScaleViewLocks_bijective :
    Function.Injective convertScaleViewLocks ∧ Function.Surjective convertScaleViewLocks := by
  have hLeft : Function.LeftInverse
      (fun locks : List v1alpha2.RisingWaveScaleViewLock =>
        locks.map (fun l' : v1alpha2.RisingWaveScaleViewLock =>
          ({ Name := l'.Reference.Name, UID := l'.Reference.UID
             Generation := l'.Reference.ObservedGeneration
             Component := l'.Component
             GroupLocks := l'.Locks.map (fun gl' =>
               ({ Name := gl'.Name, Replicas := gl'.Replicas } :
                 RisingWaveScaleViewLockGroupLock)) } : RisingWaveScaleViewLock)))
      convertScaleViewLocks := by
    intro scaleViews
    simp [convertScaleViewLocks, lo.Map, Function.comp_def]
  have hRight : Function.RightInverse
      (fun locks : List v1alpha2.RisingWaveScaleViewLock =>
        locks.map (fun l' : v1alpha2.RisingWaveScaleViewLock =>
          ({ Name := l'.Reference.Name, UID := l'.Reference.UID
             Generation := l'.Reference.ObservedGeneration
             Component := l'.Component
             GroupLocks := l'.Locks.map (fun gl' =>
               ({ Name := gl'.Name, Replicas := gl'.Replicas } :
                 RisingWaveScaleViewLockGroupLock)) } : RisingWaveScaleViewLock)))
      convertScaleViewLocks := by
    intro locks
    simp [convertScaleViewLocks, lo.Map, Function.comp_def]
  exact ⟨hLeft.injective, hRight.surjective⟩

/-- What `ConvertFrom` does: it returns the nil error and the destination record with the
object metadata of the hub record; spec and status are the destination's. -/
theorem ConvertFrom_eq (dst : RisingWave) (src : v1alpha2.RisingWave) :
    ConvertFrom dst src =
      ({ ObjectMeta := src.ObjectMeta, Spec := dst.Spec, Status := dst.Status }, none) :=
  rfl

/-- C14, refuted at a record with one lock of two group locks: `ConvertTo` completes, and
`ConvertFrom` of the hub record into an empty old-schema record yields a record whose
lock list is not the source's. -/
theorem round_trip_drops_lock_list :
    ∃ hub : v1alpha2.RisingWave,
      ConvertTo sampleRecordWithLock {} = Except.ok (hub, none) ∧
      (ConvertFrom {} hub).1.Status.ScaleViews ≠ sampleRecordWithLock.Status.ScaleViews :=
  ⟨_, rfl, by decide⟩

/-- C14 as amended: for every source record on which `ConvertTo` completes, `ConvertFrom`
of the hub record leaves the lock list of the destination as it was; into an empty
old-schema record it yields the empty lock list, which equals the source's lock list `L`
exactly when `L` is empty. -/
theorem round_trip_lock_list (src : RisingWave) (dst hub : v1alpha2.RisingWave) (err : error)
    (h : ConvertTo src dst = Except.ok (hub, err)) :
    (∀ d : RisingWave, (ConvertFrom d hub).1.Status.ScaleViews = d.Status.ScaleViews) ∧
    (ConvertFrom {} hub).1.Status.ScaleViews = [] ∧
    ((ConvertFrom {} hub).1.Status.ScaleViews = src.Status.ScaleViews ↔
      src.Status.ScaleViews = []) ∧
    hub.Status.ScaleViewLocks = convertScaleViewLocks src.Status.ScaleViews := by
  refine ⟨fun _ => rfl, rfl, ?_, (ConvertTo_ok src dst hub err h).2.2.2.2.2.2.2.2.2.2.2.2⟩
  constructor
  · intro hEq
    exact hEq.symm
  · intro hEq
    rw [hEq]
    rfl

theorem round_trip_lock_list_witness :
    ∃ hub : v1alpha2.RisingWave,
      ConvertTo sampleRecordWithLock {} = Except.ok (hub, none) ∧
      (ConvertFrom {} hub).1.Status.ScaleViews = [] :=
  ⟨_, rfl, (round_trip_lock_list sampleRecordWithLock {} _ none rfl).2.1⟩

/-! ### Backward conversion (C15, C16) -/

/-- C15, refuted at the empty hub record and the empty destination: the error `ConvertFrom`
returns is nil. -/
theorem ConvertFrom_empty_reports_success :
    ¬ ((ConvertFrom {} {}).2 ≠ none) := by
  decide

/-- C15 as amended: for every hub record and every destination, `ConvertFrom` returns the
nil error; it reports success. -/
theorem ConvertFrom_returns_nil_error (dst : RisingWave) (src : v1alpha2.RisingWave) :
    (ConvertFrom dst src).2 = none :=
  rfl

/-- C16: for every hub record `h` and destination record `d`, `ConvertFrom` returns no
error, sets the object metadata of `d` to that of `h` and leaves the spec and the status
of `d` as they were; consequently, for a source with a non-empty spec, `ConvertTo`
followed by `ConvertFrom` into an empty record never gives the source back. -/
theorem ConvertFrom_frame (h : v1alpha2.RisingWave) (d : RisingWave) :
    (ConvertFrom d h).2 = none ∧
    (ConvertFrom d h).1.ObjectMeta = h.ObjectMeta ∧
    (ConvertFrom d h).1.Spec = d.Spec ∧
    (ConvertFrom d h).1.Status = d.Status ∧
    (∀ (src : RisingWave) (dst hub : v1alpha2.RisingWave) (err : error),
      src.Spec ≠ {} → ConvertTo src dst = Except.ok (hub, err) →
        (ConvertFrom {} hub).1 ≠ src) := by
  refine ⟨rfl, rfl, rfl, rfl, ?_⟩
  intro src dst hub err hSpec _ hEq
  apply hSpec
  rw [← hEq]
  rfl

theorem ConvertFrom_frame_witness :
    sampleRecordWithLock.Spec ≠ {} ∧
    ∃ hub : v1alpha2.RisingWave,
      ConvertTo sampleRecordWithLock {} = Except.ok (hub, none) ∧
      (ConvertFrom {} hub).1 ≠ sampleRecordWithLock :=
  ⟨by decide, _, rfl,
    (ConvertFrom_frame {} {}).2.2.2.2 sampleRecordWithLock {} _ none (by decide) rfl⟩

end v1alpha1

namespace v1alpha1

/-! ### The state store as a whole (C17 to C19) -/

/-- Every result of the state-store closure, field by field: Memory, MinIO, HDFS and GCS
come from the source branch of the same name, the native S3 field is absent, and the
S3-compatible field comes from the AliyunOSS branch when there is one and from the S3
branch otherwise. -/
theorem convertStateStore_ok_eq (src : RisingWaveObjectStorage)
    (dst : v1alpha2.RisingWaveStateStoreBackend) (h : convertStateStore src = Except.ok dst) :
    dst =
      { Memory := src.Memory
        MinIO := src.MinIO.map (fun minio =>
          { RisingWaveMinIOCredentials :=
              { SecretName := minio.Secret
                UsernameKeyRef := some "username"
                PasswordKeyRef := some "password" }
            Endpoint := minio.Endpoint
            Bucket := minio.Bucket })
        S3 := none
        S3C :=
          match src.AliyunOSS with
          | some oss =>
            some
              { RisingWaveS3Credentials :=
                  { SecretName := oss.Secret
                    AccessKeyRef := some "AccessKeyID"
                    SecretAccessKeyRef := some "SecretAccessKey" }
                Endpoint :=
                  lo.IfElse oss.InternalEndpoint internalAliyunOSSEndpoint aliyunOSSEndpoint
                Region := oss.Region
                Bucket := oss.Bucket }
          | none =>
            src.S3.map (fun s3 =>
              { RisingWaveS3Credentials :=
                  { SecretName := s3.Secret
                    AccessKeyRef := some "AccessKeyID"
                    SecretAccessKeyRef := some "SecretAccessKey" }
                Endpoint := s3cEndpoint s3
                Region := s3.Region
                Bucket := s3.Bucket })
        HDFS := src.HDFS.map (fun hdfs => { NameNode := hdfs.NameNode, Root := hdfs.Root })
        GCS := src.GCS.map (fun gcs =>
          { RisingWaveGCSCredentials :=
              { UseWorkloadIdentity := gcs.UseWorkloadIdentity
                SecretName := gcs.Secret
                ServiceAccountCredentialsKeyRef := some "ServiceAccountCredentials" }
            Bucket := gcs.Bucket
            Root := gcs.Root }) } := by
  obtain ⟨memory, minio, s3, oss, hdfs, gcs⟩ := src
  cases s3 with
  | none =>
    cases minio <;> cases oss <;> cases hdfs <;> cases gcs <;>
      simp [convertStateStore, stateStoreMinIO, stateStoreS3, stateStoreAliyunOSS,
        stateStoreHDFS, stateStoreGCS] at h <;>
      subst h <;> rfl
  | some s3 =>
    by_cases hEndpoint : s3.Endpoint = ""
    · cases minio <;>
        simp [convertStateStore, stateStoreMinIO, stateStoreS3, deref, hEndpoint] at h
    · cases minio <;> cases oss <;> cases hdfs <;> cases gcs <;>
        simp [convertStateStore, stateStoreMinIO, stateStoreS3, stateStoreAliyunOSS,
          stateStoreHDFS, stateStoreGCS, hEndpoint] at h <;>
        subst h <;> rfl

end v1alpha1

namespace v1alpha1

/-- C17: on a meta store and an object store with no branch populated, the meta-store
mapping and the state-store mapping of `ConvertTo` each produce a value, without failure,
in which every branch is absent; and whenever `ConvertTo` completes on a source with such
stores, the meta store and the state store of the hub record have every branch absent. -/
theorem stores_unset :
    convertMetaStore { Memory := none, Etcd := none } = { Memory := none, Etcd := none } ∧
    convertStateStore
        { Memory := none, MinIO := none, S3 := none, AliyunOSS := none, HDFS := none
          GCS := none } =
      Except.ok
        { Memory := none, MinIO := none, S3 := none, S3C := none, HDFS := none, GCS := none } ∧
    (∀ (src : RisingWave) (dst hub : v1alpha2.RisingWave) (err : error),
      src.Spec.Storages.Meta = { Memory := none, Etcd := none } →
      src.Spec.Storages.Object =
        { Memory := none, MinIO := none, S3 := none, AliyunOSS := none, HDFS := none
          GCS := none } →
      ConvertTo src dst = Except.ok (hub, err) →
        hub.Spec.MetaStore = { Memory := none, Etcd := none } ∧
        hub.Spec.StateStore =
          { Memory := none, MinIO := none, S3 := none, S3C := none, HDFS := none
            GCS := none }) := by
  refine ⟨rfl, rfl, ?_⟩
  intro src dst hub err hMeta hObject h
  obtain ⟨_, _, hMetaStore, hStateStore, _⟩ := ConvertTo_ok src dst hub err h
  rw [hMeta] at hMetaStore
  rw [hObject] at hStateStore
  refine ⟨hMetaStore, ?_⟩
  have hEq : (Except.ok
      { Memory := none, MinIO := none, S3 := none, S3C := none, HDFS := none, GCS := none } :
        Except Panic v1alpha2.RisingWaveStateStoreBackend) = Except.ok hub.Spec.StateStore :=
    hStateStore
  exact (Except.ok.inj hEq).symm

theorem stores_unset_witness :
    ∃ hub : v1alpha2.RisingWave,
      ConvertTo sampleRecordWithLock {} = Except.ok (hub, none) ∧
      hub.Spec.MetaStore = { Memory := none, Etcd := none } ∧
      hub.Spec.StateStore =
        { Memory := none, MinIO := none, S3 := none, S3C := none, HDFS := none, GCS := none } :=
  ⟨_, rfl, stores_unset.2.2 sampleRecordWithLock {} _ none rfl rfl rfl⟩

/-- C18: for every source object store with exactly one of Memory, MinIO, S3, AliyunOSS,
HDFS and GCS populated, every value the state-store mapping produces has exactly one of
Memory, MinIO, S3, S3C, HDFS and GCS populated. -/
theorem convertStateStore_one_of (src : RisingWaveObjectStorage)
    (dst : v1alpha2.RisingWaveStateStoreBackend) (hOne : src.populatedBranches = 1)
    (h : convertStateStore src = Except.ok dst) : dst.populatedBranches = 1 := by
  rw [convertStateStore_ok_eq src dst h]
  obtain ⟨memory, minio, s3, oss, hdfs, gcs⟩ := src
  cases memory <;> cases minio <;> cases s3 <;> cases oss <;> cases hdfs <;> cases gcs <;>
    simp [RisingWaveObjectStorage.populatedBranches] at hOne <;> rfl

theorem convertStateStore_one_of_witness :
    ({ S3 := some sampleS3PathStyle } : RisingWaveObjectStorage).populatedBranches = 1 ∧
    ∃ dst : v1alpha2.RisingWaveStateStoreBackend,
      convertStateStore { S3 := some sampleS3PathStyle } = Except.ok dst ∧
      dst.populatedBranches = 1 :=
  ⟨rfl, _, rfl, convertStateStore_one_of { S3 := some sampleS3PathStyle } _ rfl rfl⟩

/-- C19: for every source with both the S3 branch (with an endpoint) and the AliyunOSS
branch populated, the state-store mapping produces a value whose S3-compatible branch is
the AliyunOSS mapping (Aliyun template endpoint, AliyunOSS secret, region and bucket; no
field of it comes from the S3 branch) and whose native S3 branch is absent.  For every
source with the MinIO and the HDFS branch populated, every value the mapping produces has
both the MinIO and the HDFS branch populated, and a value is produced as soon as the S3
branch is absent or has an endpoint. -/
theorem convertStateStore_overwrite :
    (∀ (src : RisingWaveObjectStorage) (s3 : RisingWaveObjectStorageS3)
        (oss : RisingWaveObjectStorageAliyunOSS),
      src.S3 = some s3 → s3.Endpoint ≠ "" → src.AliyunOSS = some oss →
        ∃ dst : v1alpha2.RisingWaveStateStoreBackend,
          convertStateStore src = Except.ok dst ∧
          dst.S3C = some
            { RisingWaveS3Credentials :=
                { SecretName := oss.Secret
                  AccessKeyRef := some "AccessKeyID"
                  SecretAccessKeyRef := some "SecretAccessKey" }
              Endpoint :=
                if oss.InternalEndpoint then "${BUCKET}.oss-${REGION}-internal.aliyuncs.com"
                else "${BUCKET}.oss-${REGION}.aliyuncs.com"
              Region := oss.Region
              Bucket := oss.Bucket } ∧
          dst.S3 = none) ∧
    (∀ (src : RisingWaveObjectStorage) (minio : RisingWaveObjectStorageMinIO)
        (hdfs : RisingWaveObjectStorageHDFS),
      src.MinIO = some minio → src.HDFS = some hdfs →
        (∀ dst : v1alpha2.RisingWaveStateStoreBackend, convertStateStore src = Except.ok dst →
          dst.MinIO = some
            { RisingWaveMinIOCredentials :=
                { SecretName := minio.Secret
                  UsernameKeyRef := some "username"
                  PasswordKeyRef := some "password" }
              Endpoint := minio.Endpoint
              Bucket := minio.Bucket } ∧
          dst.HDFS = some { NameNode := hdfs.NameNode, Root := hdfs.Root }) ∧
        ((∀ s3, src.S3 = some s3 → s3.Endpoint ≠ "") →
          ∃ dst, convertStateStore src = Except.ok dst)) := by
  constructor
  · intro src s3 oss hS3 hEndpoint hOSS
    obtain ⟨dst, hDst⟩ :=
      convertStateStore_ok_of_S3 src (fun s3' hS3' => by
        rw [hS3] at hS3'
        cases hS3'
        exact hEndpoint)
    refine ⟨dst, hDst, ?_, ?_⟩
    · rw [convertStateStore_ok_eq src dst hDst, hOSS]
      simp only [lo.IfElse, internalAliyunOSSEndpoint, aliyunOSSEndpoint]
    · rw [convertStateStore_ok_eq src dst hDst]
  · intro src minio hdfs hMinIO hHDFS
    refine ⟨?_, convertStateStore_ok_of_S3 src⟩
    intro dst hDst
    rw [convertStateStore_ok_eq src dst hDst, hMinIO, hHDFS]
    exact ⟨rfl, rfl⟩

theorem convertStateStore_overwrite_witness :
    (∃ dst : v1alpha2.RisingWaveStateStoreBackend,
      convertStateStore sampleS3AndAliyunOSS = Except.ok dst ∧
      dst.S3C = some
        { RisingWaveS3Credentials :=
            { SecretName := "oss-credentials"
              AccessKeyRef := some "AccessKeyID"
              SecretAccessKeyRef := some "SecretAccessKey" }
          Endpoint := "${BUCKET}.oss-${REGION}-internal.aliyuncs.com"
          Region := "cn-hangzhou"
          Bucket := "hummock" } ∧
      dst.S3 = none) ∧
    ∃ dst : v1alpha2.RisingWaveStateStoreBackend,
      convertStateStore sampleMinIOAndHDFS = Except.ok dst :=
  ⟨convertStateStore_overwrite.1 sampleS3AndAliyunOSS sampleS3PathStyle sampleAliyunOSS rfl
      (by decide) rfl,
    (convertStateStore_overwrite.2 sampleMinIOAndHDFS _ _ rfl rfl).2
      (fun s3 hS3 => by cases hS3)⟩

end v1alpha1

namespace v1alpha1

/-! ### The meta store (C20) -/

/-- C20: the Memory branch of the converted meta store is the source's, for every source,
whether or not the Etcd branch is populated.  For every source with the meta Etcd branch
populated, the Etcd branch of the converted meta store is populated with endpoints equal
to the source endpoint; its credentials are absent if and only if the source secret name
is empty, and when the secret name is not empty they carry it with username key
`"username"` and password key `"password"`.  Without an Etcd branch in the source there
is none in the converted meta store. -/
theorem convertMetaStore_Etcd :
    (∀ srcMetaStore : RisingWaveMetaStorage,
      (convertMetaStore srcMetaStore).Memory = srcMetaStore.Memory) ∧
    (∀ (srcMetaStore : RisingWaveMetaStorage) (etcd : RisingWaveMetaStorageEtcd),
      srcMetaStore.Etcd = some etcd →
        ∃ dstEtcd : v1alpha2.RisingWaveMetaStoreBackendEtcd,
          (convertMetaStore srcMetaStore).Etcd = some dstEtcd ∧
          dstEtcd.Endpoints = etcd.Endpoint ∧
          (dstEtcd.RisingWaveEtcdCredentials = none ↔ etcd.Secret = "") ∧
          (etcd.Secret ≠ "" →
            dstEtcd.RisingWaveEtcdCredentials = some
              { SecretName := etcd.Secret
                UsernameKeyRef := some "username"
                PasswordKeyRef := some "password" })) ∧
    (∀ srcMetaStore : RisingWaveMetaStorage,
      srcMetaStore.Etcd = none → (convertMetaStore srcMetaStore).Etcd = none) := by
  refine ⟨?_, ?_, ?_⟩
  · intro srcMetaStore
    unfold convertMetaStore
    cases srcMetaStore.Etcd <;> rfl
  · intro srcMetaStore etcd hEtcd
    unfold convertMetaStore
    rw [hEtcd]
    refine ⟨_, rfl, rfl, ?_, ?_⟩
    · by_cases hSecret : etcd.Secret = "" <;> simp [lo.IfElse, hSecret]
    · intro hSecret
      simp [lo.IfElse, hSecret]
  · intro srcMetaStore hEtcd
    unfold convertMetaStore
    rw [hEtcd]

theorem convertMetaStore_Etcd_witness :
    (convertMetaStore { Memory := some true }).Memory = some true ∧
    (convertMetaStore { Memory := some true }).Etcd = none ∧
    (convertMetaStore { Memory := some false, Etcd := some { Endpoint := "etcd:2379" } }).Memory =
      some false ∧
    ∃ dstEtcd : v1alpha2.RisingWaveMetaStoreBackendEtcd,
      (convertMetaStore sampleMetaEtcd).Etcd = some dstEtcd ∧
      dstEtcd.Endpoints = "etcd:2379" ∧
      (dstEtcd.RisingWaveEtcdCredentials = none ↔ "etcd-credentials" = "") ∧
      ("etcd-credentials" ≠ "" →
        dstEtcd.RisingWaveEtcdCredentials = some
          { SecretName := "etcd-credentials"
            UsernameKeyRef := some "username"
            PasswordKeyRef := some "password" }) :=
  ⟨convertMetaStore_Etcd.1 { Memory := some true },
    convertMetaStore_Etcd.2.2 { Memory := some true } rfl,
    convertMetaStore_Etcd.1 { Memory := some false, Etcd := some { Endpoint := "etcd:2379" } },
    convertMetaStore_Etcd.2.1 sampleMetaEtcd
      { Endpoint := "etcd:2379", Secret := "etcd-credentials" } rfl⟩

end v1alpha1

namespace lo

theorem MapM_ok_inv {α β : Type} (xs : List α) (f : α → Except Panic β) (ys : List β)
    (h : MapM xs f = Except.ok ys) : ∀ x ∈ xs, ∃ y, f x = Except.ok y := by
  induction xs generalizing ys with
  | nil => intro x hx; cases hx
  | cons x rest ih =>
    cases hHead : f x with
    | error e => simp [MapM, hHead] at h
    | ok y =>
      cases hTail : MapM rest f with
      | error e => simp [MapM, hHead, hTail] at h
      | ok ys' =>
        intro z hz
        rcases List.mem_cons.mp hz with hEq | hMem
        · exact ⟨y, by rw [hEq, hHead]⟩
        · exact ih ys' hTail z hMem

theorem MapM_map {α β γ : Type} (xs : List α) (g : α → β) (f : β → Except Panic γ) :
    MapM (xs.map g) f = MapM xs (fun x => f (g x)) := by
  induction xs with
  | nil => rfl
  | cons x rest ih => simp [MapM, ih]

end lo

namespace v1alpha1

/-! ### When the parts of `ConvertTo` complete -/

/-- The only panic of the embedding. -/
theorem Panic_eq (e : Panic) : e = Panic.nilPointerDereference := by
  cases e
  rfl

theorem buildV1alpha2RisingWaveComponent_ok_inv (replicasOfDefaultGroup : Int)
    (restartAt : Option metav1.Time) (groups : List RisingWaveComponentGroup)
    (component : v1alpha2.RisingWaveComponent)
    (h : buildV1alpha2RisingWaveComponent replicasOfDefaultGroup restartAt groups =
      Except.ok component) :
    ∀ group ∈ groups, group.UpgradeStrategy.RollingUpdate ≠ none := by
  unfold buildV1alpha2RisingWaveComponent at h
  cases hMap : lo.MapM groups (fun group =>
      match buildV1alpha2RisingWaveNodeGroup group with
      | Except.error e => Except.error e
      | Except.ok ng => Except.ok { ng with RestartAt := restartAt }) with
  | error e => simp [hMap] at h
  | ok nodeGroups =>
    intro group hGroup hNone
    obtain ⟨ng, hNg⟩ := lo.MapM_ok_inv _ _ _ hMap group hGroup
    rw [buildV1alpha2RisingWaveNodeGroup_none group hNone] at hNg
    cases hNg

theorem convertConfiguration_ok_inv (src : RisingWaveConfigurationSpec)
    (configuration : v1alpha2.RisingWaveNodeConfiguration)
    (h : convertConfiguration src = Except.ok configuration) : src.ConfigMap ≠ none := by
  intro hNone
  unfold convertConfiguration at h
  rw [hNone] at h
  cases h

theorem convertStateStore_ok_inv (src : RisingWaveObjectStorage)
    (dst : v1alpha2.RisingWaveStateStoreBackend) (h : convertStateStore src = Except.ok dst) :
    ∀ s3, src.S3 = some s3 → s3.Endpoint ≠ "" := by
  intro s3 hS3 hEndpoint
  unfold convertStateStore at h
  simp only at h
  rw [stateStoreS3_empty_endpoint src s3 _ hS3 hEndpoint (by rw [stateStoreMinIO_S3])] at h
  cases h

end v1alpha1

namespace v1alpha1

/-! ### The GCS branch (C21) -/

theorem stateStoreGCS_some (src : RisingWaveObjectStorage) (gcs : RisingWaveObjectStorageGCS)
    (st : v1alpha2.RisingWaveStateStoreBackend) (hGCS : src.GCS = some gcs) :
    stateStoreGCS src st =
      { st with
        GCS := some
          { RisingWaveGCSCredentials :=
              { UseWorkloadIdentity := gcs.UseWorkloadIdentity
                SecretName := gcs.Secret
                ServiceAccountCredentialsKeyRef := some "ServiceAccountCredentials" }
            Bucket := gcs.Bucket
            Root := gcs.Root } } := by
  unfold stateStoreGCS
  rw [hGCS]

/-- C21: for a source with the GCS branch populated, the GCS block of the state-store
mapping populates the GCS field of the target, whatever it held, and that value is the GCS
branch of every result of the mapping (a result exists as soon as the S3 block
completes).  It copies the workload-identity flag, the bucket and the root; its
credentials carry the source secret name and the service-account key ref
`"ServiceAccountCredentials"`, in particular when the secret name is not empty. -/
theorem stateStore_GCS (srcStateStore : RisingWaveObjectStorage)
    (gcs : RisingWaveObjectStorageGCS) (hGCS : srcStateStore.GCS = some gcs) :
    ∃ dstGCS : v1alpha2.RisingWaveStateStoreBackendGCS,
      (∀ stateStore, stateStoreGCS srcStateStore stateStore =
        { stateStore with GCS := some dstGCS }) ∧
      (∀ dst, convertStateStore srcStateStore = Except.ok dst → dst.GCS = some dstGCS) ∧
      ((∀ s3, srcStateStore.S3 = some s3 → s3.Endpoint ≠ "") →
        ∃ dst, convertStateStore srcStateStore = Except.ok dst) ∧
      dstGCS.RisingWaveGCSCredentials.UseWorkloadIdentity = gcs.UseWorkloadIdentity ∧
      dstGCS.Bucket = gcs.Bucket ∧ dstGCS.Root = gcs.Root ∧
      (gcs.Secret ≠ "" →
        dstGCS.RisingWaveGCSCredentials.SecretName = gcs.Secret ∧
        dstGCS.RisingWaveGCSCredentials.ServiceAccountCredentialsKeyRef =
          some "ServiceAccountCredentials") := by
  refine ⟨_, fun stateStore => stateStoreGCS_some srcStateStore gcs stateStore hGCS, ?_,
    convertStateStore_ok_of_S3 srcStateStore, rfl, rfl, rfl, fun _ => ⟨rfl, rfl⟩⟩
  intro dst hDst
  rw [convertStateStore_ok_eq srcStateStore dst hDst, hGCS]
  rfl

theorem stateStore_GCS_witness :
    sampleGCS.Secret ≠ "" ∧
    ∃ dstGCS : v1alpha2.RisingWaveStateStoreBackendGCS,
      (∀ stateStore, stateStoreGCS { GCS := some sampleGCS } stateStore =
        { stateStore with GCS := some dstGCS }) ∧
      (∀ dst, convertStateStore { GCS := some sampleGCS } = Except.ok dst →
        dst.GCS = some dstGCS) ∧
      ((∀ s3, ({ GCS := some sampleGCS } : RisingWaveObjectStorage).S3 = some s3 →
          s3.Endpoint ≠ "") →
        ∃ dst, convertStateStore { GCS := some sampleGCS } = Except.ok dst) ∧
      dstGCS.RisingWaveGCSCredentials.UseWorkloadIdentity = sampleGCS.UseWorkloadIdentity ∧
      dstGCS.Bucket = sampleGCS.Bucket ∧ dstGCS.Root = sampleGCS.Root ∧
      (sampleGCS.Secret ≠ "" →
        dstGCS.RisingWaveGCSCredentials.SecretName = sampleGCS.Secret ∧
        dstGCS.RisingWaveGCSCredentials.ServiceAccountCredentialsKeyRef =
          some "ServiceAccountCredentials") :=
  ⟨by decide, stateStore_GCS { GCS := some sampleGCS } sampleGCS rfl⟩

/-! ### Conditions and status discriminants (C23 to C25) -/

/-- C23: for every source condition list, the converted list has the same length, and at
every index `i` its entry is the source's `i`-th condition with type, status, last
transition time, reason and message copied (there is one exactly when the source has
one); the hub record holds this list whenever `ConvertTo` completes. -/
theorem ConvertTo_conditions (src : RisingWave) :
    (convertConditions src.Status.Conditions).length = src.Status.Conditions.length ∧
    (∀ i : Nat,
      (convertConditions src.Status.Conditions)[i]? =
        src.Status.Conditions[i]?.map (fun cond =>
          { Type_ := cond.Type_
            Status := cond.Status
            LastTransitionTime := cond.LastTransitionTime
            Reason := cond.Reason
            Message := cond.Message })) ∧
    (∀ (dst hub : v1alpha2.RisingWave) (err : error),
      ConvertTo src dst = Except.ok (hub, err) →
        hub.Status.Conditions = convertConditions src.Status.Conditions) := by
  refine ⟨by simp [convertConditions], fun i => by simp [convertConditions], ?_⟩
  intro dst hub err h
  exact (ConvertTo_ok src dst hub err h).2.2.2.2.2.2.2.2.2.1

theorem ConvertTo_conditions_witness :
    ∃ hub : v1alpha2.RisingWave,
      ConvertTo sampleRecordWithConditions {} = Except.ok (hub, none) ∧
      hub.Status.Conditions =
        [{ Type_ := "Running", Status := "True", LastTransitionTime := 1700000000
           Reason := "AllReady", Message := "all components are ready" },
         { Type_ := "Upgrading", Status := "False", LastTransitionTime := 1700000600
           Reason := "Idle", Message := "" }] :=
  ⟨_, rfl, (ConvertTo_conditions sampleRecordWithConditions).2.2 {} _ none rfl⟩

/-- C24: a meta storage type that is neither Etcd nor Memory converts to the empty
discriminant, and an object storage type outside Memory, MinIO, S3, GCS, AliyunOSS and
HDFS converts to the empty discriminant.  Both lookups are total functions: they return a
discriminant for every input.  The hub status holds their results whenever `ConvertTo`
completes. -/
theorem backend_type_lookup_default :
    (∀ t : MetaStorageType, t ≠ MetaStorageTypeEtcd → t ≠ MetaStorageTypeMemory →
      convertMetaStorageType t = "") ∧
    (∀ t : ObjectStorageType, t ≠ ObjectStorageTypeMemory → t ≠ ObjectStorageTypeMinIO →
      t ≠ ObjectStorageTypeS3 → t ≠ ObjectStorageTypeGCS → t ≠ ObjectStorageTypeAliyunOSS →
      t ≠ ObjectStorageTypeHDFS → convertObjectStorageType t = "") ∧
    (∀ (src : RisingWave) (dst hub : v1alpha2.RisingWave) (err : error),
      ConvertTo src dst = Except.ok (hub, err) →
        hub.Status.MetaStore.Backend =
          convertMetaStorageType src.Status.Storages.Meta.Type_ ∧
        hub.Status.StateStore.Backend =
          convertObjectStorageType src.Status.Storages.Object.Type_) := by
  refine ⟨?_, ?_, ?_⟩
  · intro t hEtcd hMemory
    simp [convertMetaStorageType, hEtcd, hMemory]
  · intro t hMemory hMinIO hS3 hGCS hOSS hHDFS
    simp [convertObjectStorageType, hMemory, hMinIO, hS3, hGCS, hOSS, hHDFS]
  · intro src dst hub err h
    obtain ⟨_, _, _, _, _, _, _, _, _, _, hMeta, hObject, _⟩ := ConvertTo_ok src dst hub err h
    exact ⟨hMeta, hObject⟩

theorem backend_type_lookup_default_witness :
    convertMetaStorageType "Unknown" = "" ∧ convertObjectStorageType "AzureBlob" = "" ∧
    ∃ hub : v1alpha2.RisingWave,
      ConvertTo sampleRecordWithConditions {} = Except.ok (hub, none) ∧
      hub.Status.MetaStore.Backend = "" ∧ hub.Status.StateStore.Backend = "" :=
  ⟨backend_type_lookup_default.1 "Unknown" (by decide) (by decide),
    backend_type_lookup_default.2.1 "AzureBlob" (by decide) (by decide) (by decide)
      (by decide) (by decide) (by decide),
    _, rfl, rfl, rfl⟩

/-- C25: for every per-component replica status, the per-group breakdown returned by
`buildV1alpha2RisingWaveComponentStatus` has the length of the source group list, and at
every index `i` its entry is built from the source's `i`-th group: the group's name and
exists flag, `Replicas` its target, `ReadyReplicas`, `AvailableReplicas` and
`UpdatedReplicas` its running count, and `UnavailableReplicas` zero. -/
theorem buildV1alpha2RisingWaveComponentStatus_groups (src : ComponentReplicasStatus) :
    (buildV1alpha2RisingWaveComponentStatus src).NodeGroups.length = src.Groups.length ∧
    (∀ i : Nat,
      (buildV1alpha2RisingWaveComponentStatus src).NodeGroups[i]? =
        src.Groups[i]?.map (fun group =>
          { Name := group.Name
            WorkloadReplicaStatus :=
              { Replicas := group.Target
                ReadyReplicas := group.Running
                AvailableReplicas := group.Running
                UpdatedReplicas := group.Running
                UnavailableReplicas := 0 }
            Exists := group.Exists })) := by
  constructor
  · simp [buildV1alpha2RisingWaveComponentStatus, lo.Map]
  · intro i
    simp [buildV1alpha2RisingWaveComponentStatus, lo.Map]

end v1alpha1

namespace v1alpha1

/-! ### Components that are produced (C26, C29) -/

/-- Every component `buildV1alpha2RisingWaveComponent` returns, spelled out. -/
theorem buildV1alpha2RisingWaveComponent_ok_eq (replicasOfDefaultGroup : Int)
    (restartAt : Option metav1.Time) (groups : List RisingWaveComponentGroup)
    (component : v1alpha2.RisingWaveComponent)
    (h : buildV1alpha2RisingWaveComponent replicasOfDefaultGroup restartAt groups =
      Except.ok component) :
    component =
      { LogLevel := "INFO"
        NodeGroups :=
          groups.map (fun group =>
            { Name := group.Name
              Replicas := group.Replicas
              RestartAt := restartAt
              UpgradeStrategy :=
                { Type_ := group.UpgradeStrategy.Type_
                  RollingUpdate := none
                  InPlaceUpdateStrategy := group.UpgradeStrategy.InPlaceUpdateStrategy }
              Template :=
                buildV1alpha2RisingWaveNodePodTemplate group.RisingWaveComponentGroupTemplate }) ++
          [{ Name := "", Replicas := replicasOfDefaultGroup, RestartAt := restartAt }] } := by
  have hAll := buildV1alpha2RisingWaveComponent_ok_inv _ _ _ _ h
  rw [buildV1alpha2RisingWaveComponent_ok replicasOfDefaultGroup restartAt groups hAll] at h
  exact (Except.ok.inj h).symm

/-- No pod template the conversion builds has volume mounts. -/
theorem buildV1alpha2RisingWaveNodePodTemplate_VolumeMounts
    (src : Option RisingWaveComponentGroupTemplate) :
    (buildV1alpha2RisingWaveNodePodTemplate src).VolumeMounts = [] := by
  cases src <;> rfl

/-- C26: every component `buildV1alpha2RisingWaveComponent` produces has log level
`"INFO"`, for every default replica count, restart timestamp and group list. -/
theorem buildV1alpha2RisingWaveComponent_LogLevel (replicasOfDefaultGroup : Int)
    (restartAt : Option metav1.Time) (groups : List RisingWaveComponentGroup)
    (component : v1alpha2.RisingWaveComponent)
    (h : buildV1alpha2RisingWaveComponent replicasOfDefaultGroup restartAt groups =
      Except.ok component) :
    component.LogLevel = "INFO" := by
  rw [buildV1alpha2RisingWaveComponent_ok_eq _ _ _ _ h]

theorem buildV1alpha2RisingWaveComponent_LogLevel_witness :
    ∃ component : v1alpha2.RisingWaveComponent,
      buildV1alpha2RisingWaveComponent 2 (some 1700000000) sampleGroupsWithRollingUpdate =
        Except.ok component ∧
      component.LogLevel = "INFO" :=
  ⟨_, rfl, buildV1alpha2RisingWaveComponent_LogLevel 2 (some 1700000000)
    sampleGroupsWithRollingUpdate _ rfl⟩

/-- C29: for every list of named groups on which `buildV1alpha2RisingWaveComponent`
completes, the names of the returned node groups are pairwise distinct if and only if the
names of the source groups are pairwise distinct and none of them is the empty string. -/
theorem buildV1alpha2RisingWaveComponent_names_distinct (replicasOfDefaultGroup : Int)
    (restartAt : Option metav1.Time) (groups : List RisingWaveComponentGroup)
    (component : v1alpha2.RisingWaveComponent)
    (h : buildV1alpha2RisingWaveComponent replicasOfDefaultGroup restartAt groups =
      Except.ok component) :
    (component.NodeGroups.map (fun ng => ng.Name)).Nodup ↔
      (groups.map (fun group => group.Name)).Nodup ∧
        "" ∉ groups.map (fun group => group.Name) := by
  rw [buildV1alpha2RisingWaveComponent_ok_eq _ _ _ _ h]
  simp only [List.map_append, List.map_map, List.map_cons, List.map_nil, Function.comp_def]
  rw [List.nodup_append]
  simp

theorem buildV1alpha2RisingWaveComponent_names_distinct_witness :
    ∃ component : v1alpha2.RisingWaveComponent,
      buildV1alpha2RisingWaveComponent 2 none sampleGroupsWithRollingUpdate =
        Except.ok component ∧
      ((component.NodeGroups.map (fun ng => ng.Name)).Nodup ↔
        (sampleGroupsWithRollingUpdate.map (fun group => group.Name)).Nodup ∧
          "" ∉ sampleGroupsWithRollingUpdate.map (fun group => group.Name)) ∧
      (component.NodeGroups.map (fun ng => ng.Name)).Nodup :=
  ⟨_, rfl,
    buildV1alpha2RisingWaveComponent_names_distinct 2 none sampleGroupsWithRollingUpdate _ rfl,
    by decide⟩

end v1alpha1

namespace v1alpha1

/-! ### When `ConvertTo` completes (C27) -/

/-- C27: `ConvertTo` completes only if the configuration names a config map, the
object-store S3 branch is absent or has a non-empty endpoint, and every named group of the
meta, frontend and compactor components has rolling-update parameters; when one of these
fails, `ConvertTo` does not return: it aborts with a nil dereference. -/
theorem ConvertTo_completes_only_if (src : RisingWave) (dst : v1alpha2.RisingWave) :
    (∀ (hub : v1alpha2.RisingWave) (err : error), ConvertTo src dst = Except.ok (hub, err) →
      src.Spec.Configuration.ConfigMap ≠ none ∧
      (∀ s3, src.Spec.Storages.Object.S3 = some s3 → s3.Endpoint ≠ "") ∧
      (∀ group ∈ src.Spec.Components.Meta.Groups,
        group.UpgradeStrategy.RollingUpdate ≠ none) ∧
      (∀ group ∈ src.Spec.Components.Frontend.Groups,
        group.UpgradeStrategy.RollingUpdate ≠ none) ∧
      (∀ group ∈ src.Spec.Components.Compactor.Groups,
        group.UpgradeStrategy.RollingUpdate ≠ none)) ∧
    (¬ (src.Spec.Configuration.ConfigMap ≠ none ∧
        (∀ s3, src.Spec.Storages.Object.S3 = some s3 → s3.Endpoint ≠ "") ∧
        (∀ group ∈ src.Spec.Components.Meta.Groups,
          group.UpgradeStrategy.RollingUpdate ≠ none) ∧
        (∀ group ∈ src.Spec.Components.Frontend.Groups,
          group.UpgradeStrategy.RollingUpdate ≠ none) ∧
        (∀ group ∈ src.Spec.Components.Compactor.Groups,
          group.UpgradeStrategy.RollingUpdate ≠ none)) →
      ConvertTo src dst = Except.error Panic.nilPointerDereference) := by
  have hOnlyIf : ∀ (hub : v1alpha2.RisingWave) (err : error),
      ConvertTo src dst = Except.ok (hub, err) →
      src.Spec.Configuration.ConfigMap ≠ none ∧
      (∀ s3, src.Spec.Storages.Object.S3 = some s3 → s3.Endpoint ≠ "") ∧
      (∀ group ∈ src.Spec.Components.Meta.Groups,
        group.UpgradeStrategy.RollingUpdate ≠ none) ∧
      (∀ group ∈ src.Spec.Components.Frontend.Groups,
        group.UpgradeStrategy.RollingUpdate ≠ none) ∧
      (∀ group ∈ src.Spec.Components.Compactor.Groups,
        group.UpgradeStrategy.RollingUpdate ≠ none) := by
    intro hub err h
    obtain ⟨_, _, _, hState, hConfig, hMeta, _, hFrontend, hCompactor, _⟩ :=
      ConvertTo_ok src dst hub err h
    exact ⟨convertConfiguration_ok_inv _ _ hConfig, convertStateStore_ok_inv _ _ hState,
      buildV1alpha2RisingWaveComponent_ok_inv _ _ _ _ hMeta,
      buildV1alpha2RisingWaveComponent_ok_inv _ _ _ _ hFrontend,
      buildV1alpha2RisingWaveComponent_ok_inv _ _ _ _ hCompactor⟩
  refine ⟨hOnlyIf, ?_⟩
  intro hFails
  cases hResult : ConvertTo src dst with
  | error e => rw [Panic_eq e]
  | ok result =>
    obtain ⟨hub, err⟩ := result
    exact absurd (hOnlyIf hub err hResult) hFails

theorem ConvertTo_completes_only_if_witness :
    (∃ hub : v1alpha2.RisingWave,
      ConvertTo sampleRecordWithLock {} = Except.ok (hub, none) ∧
      sampleRecordWithLock.Spec.Configuration.ConfigMap ≠ none) ∧
    ConvertTo
        { Spec := { Components := { Meta := { Groups := [{ Name := "a", Replicas := 3 }] } }
                    Configuration := { ConfigMap := some { Name := "risingwave-config" } } } }
        {} =
      Except.error Panic.nilPointerDereference :=
  ⟨⟨_, rfl, ((ConvertTo_completes_only_if sampleRecordWithLock {}).1 _ none rfl).1⟩,
    (ConvertTo_completes_only_if _ {}).2 (fun hAll =>
      hAll.2.2.1 { Name := "a", Replicas := 3 } (List.mem_singleton.mpr rfl) rfl)⟩

/-! ### An endpoint with the `http://` scheme (C30) -/

theorem http_not_https (rest : String) : ¬ ∃ r : String, "http://" ++ rest = "https://" ++ r := by
  rintro ⟨r, h⟩
  have hData := congrArg String.data h
  simp [String.data_append] at hData

/-- C30: for a source S3 branch in virtual-hosted style whose endpoint starts with
`"http://"`, the S3 block populates the S3-compatible field of the target with an endpoint
that is `"${BUCKET}"` followed by the whole source endpoint, so that it starts with
`"${BUCKET}http://"`; for a source with no AliyunOSS branch that value is the
S3-compatible branch of the mapping's result. -/
theorem stateStore_S3_http_endpoint (srcStateStore : RisingWaveObjectStorage)
    (s3 : RisingWaveObjectStorageS3) (rest : String) (hS3 : srcStateStore.S3 = some s3)
    (hStyle : s3.VirtualHostedStyle = true) (hEndpoint : s3.Endpoint = "http://" ++ rest) :
    ∃ s3c : v1alpha2.RisingWaveStateStoreBackendS3C,
      (∀ stateStore, stateStoreS3 srcStateStore stateStore =
        Except.ok { stateStore with S3C := some s3c }) ∧
      (srcStateStore.AliyunOSS = none →
        ∃ dst, convertStateStore srcStateStore = Except.ok dst ∧ dst.S3C = some s3c) ∧
      s3c.Endpoint = "${BUCKET}" ++ s3.Endpoint ∧
      s3c.Endpoint = "${BUCKET}http://" ++ rest := by
  have hNonEmpty : s3.Endpoint ≠ "" := by
    intro hEmpty
    rw [hEndpoint] at hEmpty
    have hData := congrArg String.data hEmpty
    simp [String.data_append] at hData
  have hRewrite : s3cEndpoint s3 = "${BUCKET}" ++ s3.Endpoint :=
    s3cEndpoint_no_scheme s3 hStyle (by rw [hEndpoint]; exact http_not_https rest)
  refine ⟨_, fun stateStore => stateStoreS3_endpoint srcStateStore s3 stateStore hS3 hNonEmpty,
    ?_, hRewrite, ?_⟩
  · intro hOSS
    obtain ⟨dst, hDst, _, hCompatible⟩ :=
      convertStateStore_S3_endpoint srcStateStore s3 hS3 hNonEmpty
    refine ⟨dst, hDst, ?_⟩
    rw [hCompatible, stateStoreAliyunOSS_none _ _ hOSS]
  · show s3cEndpoint s3 = "${BUCKET}http://" ++ rest
    rw [hRewrite, hEndpoint, ← String.append_assoc]
    rfl

theorem stateStore_S3_http_endpoint_witness :
    ∃ s3c : v1alpha2.RisingWaveStateStoreBackendS3C,
      (∀ stateStore, stateStoreS3 { S3 := some sampleS3Http } stateStore =
        Except.ok { stateStore with S3C := some s3c }) ∧
      ((({ S3 := some sampleS3Http } : RisingWaveObjectStorage).AliyunOSS = none) →
        ∃ dst, convertStateStore { S3 := some sampleS3Http } = Except.ok dst ∧
          dst.S3C = some s3c) ∧
      s3c.Endpoint = "${BUCKET}" ++ sampleS3Http.Endpoint ∧
      s3c.Endpoint = "${BUCKET}http://" ++ "minio.local:9000" :=
  stateStore_S3_http_endpoint { S3 := some sampleS3Http } sampleS3Http "minio.local:9000" rfl
    rfl rfl

end v1alpha1

namespace v1alpha1

/-! ### The compute component and the volumes of the source (C28) -/

theorem buildVolumeMounts_ok (groups : List RisingWaveComputeGroup)
    (volumeMounts : List (String × List corev1.VolumeMount))
    (h : ∀ g ∈ groups, g.RisingWaveComputeGroupTemplate ≠ none) :
    ∃ table, buildVolumeMounts groups volumeMounts = Except.ok table := by
  induction groups generalizing volumeMounts with
  | nil => exact ⟨volumeMounts, rfl⟩
  | cons g rest ih =>
    cases hTemplate : g.RisingWaveComputeGroupTemplate with
    | none => exact absurd hTemplate (h g (List.mem_cons_self g rest))
    | some computeTemplate =>
      simp only [buildVolumeMounts, hTemplate, deref]
      exact ih _ (fun g' hg' => h g' (List.mem_cons_of_mem g hg'))

theorem buildVolumeMounts_panics (groups : List RisingWaveComputeGroup)
    (volumeMounts : List (String × List corev1.VolumeMount))
    (h : ¬ ∀ g ∈ groups, g.RisingWaveComputeGroupTemplate ≠ none) :
    buildVolumeMounts groups volumeMounts = Except.error Panic.nilPointerDereference := by
  cases hResult : buildVolumeMounts groups volumeMounts with
  | error e => rw [Panic_eq e]
  | ok table =>
    exfalso
    apply h
    clear h
    induction groups generalizing volumeMounts with
    | nil => intro g hg; cases hg
    | cons g rest ih =>
      cases hTemplate : g.RisingWaveComputeGroupTemplate with
      | none => simp [buildVolumeMounts, hTemplate, deref] at hResult
      | some computeTemplate =>
        simp only [buildVolumeMounts, hTemplate, deref] at hResult
        intro g' hg'
        rcases List.mem_cons.mp hg' with hEq | hMem
        · rw [hEq, hTemplate]
          exact Option.some_ne_none _
        · exact ih _ hResult g' hMem

/-- The callback that turns a compute group into a component group does not read the
volume mounts. -/
theorem computeGroupToComponentGroup_erase (g : RisingWaveComputeGroup) :
    computeGroupToComponentGroup
        { g with
          RisingWaveComputeGroupTemplate :=
            g.RisingWaveComputeGroupTemplate.map (fun t => { t with VolumeMounts := [] }) } =
      computeGroupToComponentGroup g := by
  unfold computeGroupToComponentGroup
  cases g.RisingWaveComputeGroupTemplate <;> rfl

/-- `ConvertTo` gives the same outcome on a source and on that source with its
volume-claim templates and compute volume mounts removed. -/
theorem ConvertTo_eraseVolumes (src : RisingWave) (dst : v1alpha2.RisingWave) :
    ConvertTo (eraseVolumes src) dst = ConvertTo src dst := by
  unfold ConvertTo
  simp only [eraseVolumes, lo.MapM_map, computeGroupToComponentGroup_erase,
    attachVolumesLoop_slice]
  by_cases hAll : ∀ g ∈ src.Spec.Components.Compute.Groups,
      g.RisingWaveComputeGroupTemplate ≠ none
  · obtain ⟨table, hTable⟩ := buildVolumeMounts_ok src.Spec.Components.Compute.Groups [] hAll
    obtain ⟨table', hTable'⟩ := buildVolumeMounts_ok
      (src.Spec.Components.Compute.Groups.map (fun g =>
        { g with
          RisingWaveComputeGroupTemplate :=
            g.RisingWaveComputeGroupTemplate.map (fun t => { t with VolumeMounts := [] }) }))
      [] (by
        intro g hg
        obtain ⟨g0, hg0, hEq⟩ := List.mem_map.mp hg
        rw [← hEq]
        have h0 := hAll g0 hg0
        cases hTemplate : g0.RisingWaveComputeGroupTemplate with
        | none => exact absurd hTemplate h0
        | some t => simp)
    simp only [hTable, hTable']
  · have hTable := buildVolumeMounts_panics src.Spec.Components.Compute.Groups [] hAll
    have hTable' := buildVolumeMounts_panics
      (src.Spec.Components.Compute.Groups.map (fun g =>
        { g with
          RisingWaveComputeGroupTemplate :=
            g.RisingWaveComputeGroupTemplate.map (fun t => { t with VolumeMounts := [] }) }))
      [] (by
        intro hAll'
        apply hAll
        intro g hg hNone
        exact hAll' _ (List.mem_map.mpr ⟨g, hg, rfl⟩) (by simp [hNone]))
    simp only [hTable, hTable']

end v1alpha1

namespace v1alpha1

/-! ### Spec branch and status discriminant of an S3 source with an endpoint (C31) -/

/-- C31: for every source on which `ConvertTo` completes, whose object store has only the
S3 branch populated, with a non-empty endpoint, and whose status object-storage type is
S3, the state store of the converted spec has the S3-compatible branch populated and the
native S3 branch absent, while the state-store backend of the converted status is `"S3"`
and not `"S3c"`. -/
theorem ConvertTo_S3_status_disagrees_with_spec (src : RisingWave)
    (dst hub : v1alpha2.RisingWave) (err : error) (s3 : RisingWaveObjectStorageS3)
    (hObject : src.Spec.Storages.Object =
      { Memory := none, MinIO := none, S3 := some s3, AliyunOSS := none, HDFS := none
        GCS := none })
    (hEndpoint : s3.Endpoint ≠ "")
    (hType : src.Status.Storages.Object.Type_ = ObjectStorageTypeS3)
    (h : ConvertTo src dst = Except.ok (hub, err)) :
    (∃ s3c : v1alpha2.RisingWaveStateStoreBackendS3C,
      hub.Spec.StateStore.S3C = some s3c ∧ s3c.Endpoint = s3cEndpoint s3) ∧
    hub.Spec.StateStore.S3 = none ∧
    hub.Status.StateStore.Backend = v1alpha2.RisingWaveStateStoreBackendTypeS3 ∧
    hub.Status.StateStore.Backend = "S3" ∧
    hub.Status.StateStore.Backend ≠ v1alpha2.RisingWaveStateStoreBackendTypeS3Compatible ∧
    hub.Status.StateStore.Backend ≠ "S3c" := by
  obtain ⟨_, _, _, hState, _, _, _, _, _, _, _, hBackend, _⟩ := ConvertTo_ok src dst hub err h
  have hS3 : src.Spec.Storages.Object.S3 = some s3 := by rw [hObject]
  have hOSS : src.Spec.Storages.Object.AliyunOSS = none := by rw [hObject]
  obtain ⟨stateStore, hStateStore, hNative, hCompatible⟩ :=
    convertStateStore_S3_endpoint src.Spec.Storages.Object s3 hS3 hEndpoint
  rw [hState] at hStateStore
  have hSame : hub.Spec.StateStore = stateStore := Except.ok.inj hStateStore
  rw [stateStoreAliyunOSS_none _ _ hOSS] at hCompatible
  have hLookup : hub.Status.StateStore.Backend = "S3" := by
    rw [hBackend, hType]
    rfl
  refine ⟨⟨_, by rw [hSame]; exact hCompatible, rfl⟩, by rw [hSame]; exact hNative,
    hLookup, hLookup, ?_, ?_⟩
  · rw [hLookup]
    decide
  · rw [hLookup]
    decide

theorem ConvertTo_S3_status_disagrees_with_spec_witness :
    sampleS3PathStyle.Endpoint ≠ "" ∧
    ∃ hub : v1alpha2.RisingWave,
      ConvertTo sampleRecordWithS3 {} = Except.ok (hub, none) ∧
      (∃ s3c : v1alpha2.RisingWaveStateStoreBackendS3C,
        hub.Spec.StateStore.S3C = some s3c ∧ s3c.Endpoint = s3cEndpoint sampleS3PathStyle) ∧
      hub.Spec.StateStore.S3 = none ∧
      hub.Status.StateStore.Backend = v1alpha2.RisingWaveStateStoreBackendTypeS3 ∧
      hub.Status.StateStore.Backend = "S3" ∧
      hub.Status.StateStore.Backend ≠ v1alpha2.RisingWaveStateStoreBackendTypeS3Compatible ∧
      hub.Status.StateStore.Backend ≠ "S3c" :=
  ⟨by decide, _, rfl,
    ConvertTo_S3_status_disagrees_with_spec sampleRecordWithS3 {} _ none sampleS3PathStyle rfl
      (by decide) rfl rfl⟩

end v1alpha1

namespace v1alpha1

/-! ### The volume statements of the compute component (C22, C28) -/

/-- On a source whose compute groups all have a template, the volume statements return
the compute component they were given. -/
theorem attachComputeVolumes_ok (src : RisingWave)
    (computeComponent : v1alpha2.RisingWaveComponent)
    (h : ∀ g ∈ src.Spec.Components.Compute.Groups, g.RisingWaveComputeGroupTemplate ≠ none) :
    attachComputeVolumes src computeComponent = Except.ok computeComponent := by
  obtain ⟨table, hTable⟩ := buildVolumeMounts_ok src.Spec.Components.Compute.Groups [] h
  unfold attachComputeVolumes
  simp only [hTable, attachVolumesLoop_slice]

theorem attachComputeVolumes_panics (src : RisingWave)
    (computeComponent : v1alpha2.RisingWaveComponent)
    (h : ¬ ∀ g ∈ src.Spec.Components.Compute.Groups, g.RisingWaveComputeGroupTemplate ≠ none) :
    attachComputeVolumes src computeComponent = Except.error Panic.nilPointerDereference := by
  unfold attachComputeVolumes
  simp only [buildVolumeMounts_panics src.Spec.Components.Compute.Groups [] h]

/-- Whatever the volume statements return is the compute component they were given. -/
theorem attachComputeVolumes_ok_inv (src : RisingWave)
    (computeComponent result : v1alpha2.RisingWaveComponent)
    (h : attachComputeVolumes src computeComponent = Except.ok result) :
    result = computeComponent := by
  by_cases hAll : ∀ g ∈ src.Spec.Components.Compute.Groups,
      g.RisingWaveComputeGroupTemplate ≠ none
  · rw [attachComputeVolumes_ok src computeComponent hAll] at h
    exact (Except.ok.inj h).symm
  · rw [attachComputeVolumes_panics src computeComponent hAll] at h
    cases h

/-- The volume statements have the same outcome on a source and on that source with its
volume-claim templates and compute volume mounts removed. -/
theorem attachComputeVolumes_eraseVolumes (src : RisingWave)
    (computeComponent : v1alpha2.RisingWaveComponent) :
    attachComputeVolumes (eraseVolumes src) computeComponent =
      attachComputeVolumes src computeComponent := by
  have hTemplates :
      (∀ g ∈ (eraseVolumes src).Spec.Components.Compute.Groups,
        g.RisingWaveComputeGroupTemplate ≠ none) ↔
      (∀ g ∈ src.Spec.Components.Compute.Groups, g.RisingWaveComputeGroupTemplate ≠ none) := by
    constructor
    · intro hErased g hg hNone
      exact hErased _ (List.mem_map.mpr ⟨g, hg, rfl⟩) (by simp [hNone])
    · intro hAll g hg
      obtain ⟨g0, hg0, hEq⟩ := List.mem_map.mp hg
      rw [← hEq]
      have h0 := hAll g0 hg0
      cases hTemplate : g0.RisingWaveComputeGroupTemplate with
      | none => exact absurd hTemplate h0
      | some t => simp
  by_cases hAll : ∀ g ∈ src.Spec.Components.Compute.Groups,
      g.RisingWaveComputeGroupTemplate ≠ none
  · rw [attachComputeVolumes_ok src computeComponent hAll,
      attachComputeVolumes_ok (eraseVolumes src) computeComponent (hTemplates.mpr hAll)]
  · rw [attachComputeVolumes_panics src computeComponent hAll,
      attachComputeVolumes_panics (eraseVolumes src) computeComponent
        (fun hErased => hAll (hTemplates.mp hErased))]

/-- When `ConvertTo` completes, the compute component of the hub record is what the
volume statements return on the compute component built from the converted compute
groups. -/
theorem ConvertTo_ok_attachComputeVolumes (src : RisingWave) (dst hub : v1alpha2.RisingWave)
    (err : error) (h : ConvertTo src dst = Except.ok (hub, err)) :
    ∃ (computeGroups : List RisingWaveComponentGroup)
      (computeComponent : v1alpha2.RisingWaveComponent),
      lo.MapM src.Spec.Components.Compute.Groups computeGroupToComponentGroup =
        Except.ok computeGroups ∧
      buildV1alpha2RisingWaveComponent src.Spec.Global.Replicas.Compute
        src.Spec.Components.Compute.RestartAt computeGroups = Except.ok computeComponent ∧
      attachComputeVolumes src computeComponent = Except.ok hub.Spec.ComputeComponent := by
  obtain ⟨_, _, _, _, _, _, ⟨computeGroups, hGroups, hCompute⟩, _⟩ :=
    ConvertTo_ok src dst hub err h
  refine ⟨computeGroups, hub.Spec.ComputeComponent, hGroups, hCompute, ?_⟩
  cases hBlock : attachComputeVolumes src hub.Spec.ComputeComponent with
  | ok result => rw [attachComputeVolumes_ok_inv _ _ _ hBlock]
  | error e =>
    exfalso
    unfold attachComputeVolumes at hBlock
    unfold ConvertTo at h
    simp only [hGroups, hCompute] at h
    cases hMounts : buildVolumeMounts src.Spec.Components.Compute.Groups [] with
    | ok table => simp [hMounts] at hBlock
    | error e' =>
      simp only [hMounts] at h
      repeat' split at h
      all_goals cases h

end v1alpha1

namespace v1alpha1

/-- C22: the synthetic default group of the converted compute component has an empty
volume-mount list.  On every source whose compute groups have templates, and so mount
lists of any content, the statements that build the mount table from these groups and run
the attachment loop return the compute component they were given, with the default group
last and without mounts, whatever named node groups precede it.  Whenever `ConvertTo`
completes, the compute component of the hub record is what these statements return on the
component built from the converted compute groups, and its node groups end with the
default group, whose name is empty and whose mount list is empty.  The loop itself leaves
such a slice as it is for every mount table. -/
theorem ConvertTo_default_compute_group_mounts :
    (∀ (src : RisingWave) (named : List v1alpha2.RisingWaveNodeGroup) (replicas : Int)
        (restartAt : Option metav1.Time),
      (∀ g ∈ src.Spec.Components.Compute.Groups, g.RisingWaveComputeGroupTemplate ≠ none) →
        ∃ defaultGroup : v1alpha2.RisingWaveNodeGroup,
          attachComputeVolumes src
              { LogLevel := "INFO"
                NodeGroups :=
                  named ++ [{ Name := "", Replicas := replicas, RestartAt := restartAt }] } =
            Except.ok { LogLevel := "INFO", NodeGroups := named ++ [defaultGroup] } ∧
          defaultGroup.Name = "" ∧ defaultGroup.Replicas = replicas ∧
          defaultGroup.Template.VolumeMounts = []) ∧
    (∀ (src : RisingWave) (dst hub : v1alpha2.RisingWave) (err : error),
      ConvertTo src dst = Except.ok (hub, err) →
        (∃ (computeGroups : List RisingWaveComponentGroup)
          (computeComponent : v1alpha2.RisingWaveComponent),
          lo.MapM src.Spec.Components.Compute.Groups computeGroupToComponentGroup =
            Except.ok computeGroups ∧
          buildV1alpha2RisingWaveComponent src.Spec.Global.Replicas.Compute
            src.Spec.Components.Compute.RestartAt computeGroups = Except.ok computeComponent ∧
          attachComputeVolumes src computeComponent = Except.ok hub.Spec.ComputeComponent) ∧
        ∃ (named : List v1alpha2.RisingWaveNodeGroup)
          (defaultGroup : v1alpha2.RisingWaveNodeGroup),
          hub.Spec.ComputeComponent.NodeGroups = named ++ [defaultGroup] ∧
          defaultGroup.Name = "" ∧
          defaultGroup.Replicas = src.Spec.Global.Replicas.Compute ∧
          defaultGroup.Template.VolumeMounts = []) ∧
    (∀ (pvcTemplates : List PersistentVolumeClaim)
        (volumeMounts : List (String × List corev1.VolumeMount))
        (named : List v1alpha2.RisingWaveNodeGroup) (replicas : Int)
        (restartAt : Option metav1.Time),
      (attachVolumesLoop pvcTemplates volumeMounts
          (named ++ [{ Name := "", Replicas := replicas, RestartAt := restartAt }])).1 =
        named ++ [{ Name := "", Replicas := replicas, RestartAt := restartAt }]) := by
  refine ⟨?_, ?_, ?_⟩
  · intro src named replicas restartAt hTemplates
    exact ⟨{ Name := "", Replicas := replicas, RestartAt := restartAt },
      attachComputeVolumes_ok src _ hTemplates, rfl, rfl, rfl⟩
  · intro src dst hub err h
    refine ⟨ConvertTo_ok_attachComputeVolumes src dst hub err h, ?_⟩
    obtain ⟨_, _, _, _, _, _, ⟨computeGroups, _, hCompute⟩, _⟩ := ConvertTo_ok src dst hub err h
    rw [buildV1alpha2RisingWaveComponent_ok_eq _ _ _ _ hCompute]
    exact ⟨_, _, rfl, rfl, rfl, rfl⟩
  · intro pvcTemplates volumeMounts named replicas restartAt
    exact attachVolumesLoop_slice _ _ _

theorem ConvertTo_default_compute_group_mounts_witness :
    buildVolumeMounts sampleRecordWithComputeMounts.Spec.Components.Compute.Groups [] =
      Except.ok [("pool", [{ Name := "data", MountPath := "/data" }])] ∧
    (∃ defaultGroup : v1alpha2.RisingWaveNodeGroup,
      attachComputeVolumes sampleRecordWithComputeMounts
          { LogLevel := "INFO"
            NodeGroups :=
              [{ Name := "pool", Replicas := 2 }] ++
                [{ Name := "", Replicas := 1, RestartAt := none }] } =
        Except.ok
          { LogLevel := "INFO"
            NodeGroups := [{ Name := "pool", Replicas := 2 }] ++ [defaultGroup] } ∧
      defaultGroup.Name = "" ∧ defaultGroup.Replicas = 1 ∧
      defaultGroup.Template.VolumeMounts = []) ∧
    (∃ (hub : v1alpha2.RisingWave) (named : List v1alpha2.RisingWaveNodeGroup)
        (defaultGroup : v1alpha2.RisingWaveNodeGroup),
      ConvertTo sampleRecordWithLock {} = Except.ok (hub, none) ∧
      hub.Spec.ComputeComponent.NodeGroups = named ++ [defaultGroup] ∧
      defaultGroup.Name = "" ∧ defaultGroup.Replicas = 1 ∧
      defaultGroup.Template.VolumeMounts = []) := by
  refine ⟨rfl, ?_, ?_⟩
  · exact ConvertTo_default_compute_group_mounts.1 sampleRecordWithComputeMounts
      [{ Name := "pool", Replicas := 2 }] 1 none (by decide)
  · obtain ⟨_, named, defaultGroup, hGroups, hName, hReplicas, hMounts⟩ :=
      ConvertTo_default_compute_group_mounts.2.1 sampleRecordWithLock {} _ none rfl
    exact ⟨_, named, defaultGroup, rfl, hGroups, hName, hReplicas, hMounts⟩

end v1alpha1

namespace v1alpha1

/-- C28: the converted compute component does not depend on the volume-claim templates of
the source or on the volume mounts of its compute groups.  For two sources that differ
only in those fields: the statements that build the mount table and run the attachment
loop have the same outcome on every compute component built so far, and when they
complete on a component that `buildV1alpha2RisingWaveComponent` built, from any groups,
they return it with no volume-claim templates and no volume mounts on any node group;
`ConvertTo` has the same outcome on both sources; and when it completes on both, the hub
records are equal, the compute component of the hub record is what the volume statements
returned, and every compute node group in it has no volume-claim templates and no volume
mounts. -/
theorem ConvertTo_ignores_volumes (src src' : RisingWave)
    (hSame : eraseVolumes src = eraseVolumes src') :
    (∀ computeComponent : v1alpha2.RisingWaveComponent,
      attachComputeVolumes src computeComponent =
        attachComputeVolumes src' computeComponent) ∧
    (∀ (replicasOfDefaultGroup : Int) (restartAt : Option metav1.Time)
        (groups : List RisingWaveComponentGroup)
        (computeComponent result : v1alpha2.RisingWaveComponent),
      buildV1alpha2RisingWaveComponent replicasOfDefaultGroup restartAt groups =
        Except.ok computeComponent →
      attachComputeVolumes src computeComponent = Except.ok result →
        attachComputeVolumes src' computeComponent = Except.ok result ∧
        result.NodeGroups.length = groups.length + 1 ∧
        ∀ ng ∈ result.NodeGroups,
          ng.VolumeClaimTemplates = [] ∧ ng.Template.VolumeMounts = []) ∧
    (∀ dst : v1alpha2.RisingWave, ConvertTo src dst = ConvertTo src' dst) ∧
    (∀ (dst hub hub' : v1alpha2.RisingWave) (err err' : error),
      ConvertTo src dst = Except.ok (hub, err) → ConvertTo src' dst = Except.ok (hub', err') →
        hub = hub' ∧
        (∃ (computeGroups : List RisingWaveComponentGroup)
          (computeComponent : v1alpha2.RisingWaveComponent),
          lo.MapM src.Spec.Components.Compute.Groups computeGroupToComponentGroup =
            Except.ok computeGroups ∧
          buildV1alpha2RisingWaveComponent src.Spec.Global.Replicas.Compute
            src.Spec.Components.Compute.RestartAt computeGroups = Except.ok computeComponent ∧
          attachComputeVolumes src computeComponent = Except.ok hub.Spec.ComputeComponent) ∧
        ∀ ng ∈ hub.Spec.ComputeComponent.NodeGroups,
          ng.VolumeClaimTemplates = [] ∧ ng.Template.VolumeMounts = []) := by
  have hBlock : ∀ computeComponent : v1alpha2.RisingWaveComponent,
      attachComputeVolumes src computeComponent =
        attachComputeVolumes src' computeComponent := by
    intro computeComponent
    rw [← attachComputeVolumes_eraseVolumes src, ← attachComputeVolumes_eraseVolumes src', hSame]
  have hBuilt : ∀ (replicasOfDefaultGroup : Int) (restartAt : Option metav1.Time)
      (groups : List RisingWaveComponentGroup) (computeComponent : v1alpha2.RisingWaveComponent),
      buildV1alpha2RisingWaveComponent replicasOfDefaultGroup restartAt groups =
        Except.ok computeComponent →
      computeComponent.NodeGroups.length = groups.length + 1 ∧
      ∀ ng ∈ computeComponent.NodeGroups,
        ng.VolumeClaimTemplates = [] ∧ ng.Template.VolumeMounts = [] := by
    intro replicasOfDefaultGroup restartAt groups computeComponent hCompute
    rw [buildV1alpha2RisingWaveComponent_ok_eq _ _ _ _ hCompute]
    refine ⟨by simp, ?_⟩
    intro ng hng
    rcases List.mem_append.mp hng with hNamed | hDefault
    · obtain ⟨group, _, hEq⟩ := List.mem_map.mp hNamed
      rw [← hEq]
      exact ⟨rfl, buildV1alpha2RisingWaveNodePodTemplate_VolumeMounts _⟩
    · rw [List.mem_singleton.mp hDefault]
      exact ⟨rfl, rfl⟩
  have hOutcome : ∀ dst : v1alpha2.RisingWave, ConvertTo src dst = ConvertTo src' dst := by
    intro dst
    rw [← ConvertTo_eraseVolumes src dst, ← ConvertTo_eraseVolumes src' dst, hSame]
  refine ⟨hBlock, ?_, hOutcome, ?_⟩
  · intro replicasOfDefaultGroup restartAt groups computeComponent result hCompute hResult
    have hEq := attachComputeVolumes_ok_inv _ _ _ hResult
    refine ⟨by rw [← hBlock]; exact hResult, ?_⟩
    rw [hEq]
    exact hBuilt _ _ _ _ hCompute
  · intro dst hub hub' err err' h h'
    refine ⟨?_, ConvertTo_ok_attachComputeVolumes src dst hub err h, ?_⟩
    · rw [hOutcome dst, h'] at h
      exact ((Prod.mk.inj (Except.ok.inj h)).1).symm
    · obtain ⟨_, _, _, _, _, _, ⟨computeGroups, _, hCompute⟩, _⟩ :=
        ConvertTo_ok src dst hub err h
      exact (hBuilt _ _ _ _ hCompute).2

theorem ConvertTo_ignores_volumes_witness :
    sampleRecordWithComputeMounts ≠ sampleRecordWithOtherComputeMounts ∧
    eraseVolumes sampleRecordWithComputeMounts =
      eraseVolumes sampleRecordWithOtherComputeMounts ∧
    (∃ computeComponent : v1alpha2.RisingWaveComponent,
      buildV1alpha2RisingWaveComponent 1 none sampleGroupsWithRollingUpdate =
        Except.ok computeComponent ∧
      attachComputeVolumes sampleRecordWithComputeMounts computeComponent =
        Except.ok computeComponent ∧
      attachComputeVolumes sampleRecordWithOtherComputeMounts computeComponent =
        Except.ok computeComponent ∧
      computeComponent.NodeGroups.length = 3 ∧
      ∀ ng ∈ computeComponent.NodeGroups,
        ng.VolumeClaimTemplates = [] ∧ ng.Template.VolumeMounts = []) ∧
    sampleRecordWithVolumeClaim ≠ sampleRecordWithoutVolumeClaim ∧
    ∃ hub hub' : v1alpha2.RisingWave,
      ConvertTo sampleRecordWithVolumeClaim {} = Except.ok (hub, none) ∧
      ConvertTo sampleRecordWithoutVolumeClaim {} = Except.ok (hub', none) ∧
      hub = hub' ∧
      ∀ ng ∈ hub.Spec.ComputeComponent.NodeGroups,
        ng.VolumeClaimTemplates = [] ∧ ng.Template.VolumeMounts = [] := by
  refine ⟨by decide, rfl, ?_, by decide, ?_⟩
  · obtain ⟨hOther, hLength, hNone⟩ :=
      (ConvertTo_ignores_volumes sampleRecordWithComputeMounts
        sampleRecordWithOtherComputeMounts rfl).2.1 1 none sampleGroupsWithRollingUpdate _ _
        rfl rfl
    exact ⟨_, rfl, rfl, hOther, hLength, hNone⟩
  · obtain ⟨hEq, _, hNone⟩ :=
      (ConvertTo_ignores_volumes sampleRecordWithVolumeClaim sampleRecordWithoutVolumeClaim
        rfl).2.2.2 {} _ _ none none rfl rfl
    exact ⟨_, _, rfl, rfl, hEq, hNone⟩

end v1alpha1
